import Mathlib

/-!
Verification of the content-pipeline core of this repository: the SEO
optimizer (`backend/core/seo_optimizer.py`), the plagiarism / fact checker
(`backend/core/plagiarism_checker.py`), the content generator
(`backend/core/content_generator.py`) and the style refiner
(`backend/core/style_refiner.py`).

Modelling conventions, used throughout:
* Python `str` values are modelled as `List Char` (`Txt`); Python string
  case operations are modelled on ASCII letters (the repository only ever
  manipulates ASCII template text).
* Python floats are modelled as exact rationals (`ℚ`).  All float
  constants appearing in the sources (0.5, 2.5, 1.5/100, score weights,
  thresholds, `round(x, 2)`) are decimal values that behave identically
  in binary floating point and in exact rational arithmetic at every
  comparison performed by the code on the inputs considered here; the
  one place where the difference is observable (`round`) is modelled as
  exact decimal rounding half-to-even, matching CPython on non-tie
  values.
* The specific regular expressions used by the sources are implemented
  directly as executable scanners with Python `re` semantics (leftmost
  match, greedy / lazy quantifiers, `MULTILINE`, `IGNORECASE`), as
  documented at each definition.
* Code with network effects is modelled by passing the outcome of each
  outbound call as an explicit parameter; Python runtime exceptions are
  modelled by an explicit `Option String` parameter where a claim is
  about exception handling.
-/

set_option maxRecDepth 8000

namespace CapstonePipeline

/-- Text values: Python `str` as a list of characters. -/
abbrev Txt := List Char

/-- Coerce a Lean string literal to `Txt`. -/
def lit (s : String) : Txt := s.data

/-- ASCII model of Python `str.lower` on a single character. -/
def lowerChar (c : Char) : Char :=
  if 'A' ≤ c ∧ c ≤ 'Z' then Char.ofNat (c.toNat + 32) else c

/-- ASCII model of Python `str.lower`. -/
def lowerTxt (t : Txt) : Txt := t.map lowerChar

/-- ASCII model of Python `str.upper` on a single character. -/
def upperChar (c : Char) : Char :=
  if 'a' ≤ c ∧ c ≤ 'z' then Char.ofNat (c.toNat - 32) else c

/-- Python `str.isalpha` restricted to ASCII letters. -/
def isAsciiAlpha (c : Char) : Bool :=
  ('a' ≤ c ∧ c ≤ 'z') ∨ ('A' ≤ c ∧ c ≤ 'Z')

/-- Characters treated as whitespace by Python `str.split()` / `str.strip()`:
space, tab, newline, carriage return, vertical tab, form feed. -/
def isPySpace (c : Char) : Bool :=
  c = ' ' ∨ c = '\t' ∨ c = '\n' ∨ c = '\r' ∨ c = Char.ofNat 11 ∨ c = Char.ofNat 12

/-- Boolean test that a pattern is a prefix of a text. -/
def startsWithTxt : Txt → Txt → Bool
  | [], _ => true
  | _ :: _, [] => false
  | p :: ps, c :: cs => p = c && startsWithTxt ps cs

/-- Case-insensitive prefix test; the pattern is given pre-lowered, the text
character is lowered before comparison (model of `re.IGNORECASE` literals). -/
def ciStartsWith : Txt → Txt → Bool
  | [], _ => true
  | _ :: _, [] => false
  | p :: ps, c :: cs => p = lowerChar c && ciStartsWith ps cs

/-- Apply a test to every suffix of the text (including the text itself and
the empty suffix) and report whether any succeeds. -/
def anySuffix (p : Txt → Bool) : Txt → Bool
  | [] => p []
  | c :: cs => p (c :: cs) || anySuffix p cs

/-- Model of Python `w in t` substring membership. -/
def hasSub (t w : Txt) : Bool := anySuffix (startsWithTxt w) t

/-- Auxiliary recursion for `countSub`: counts non-overlapping occurrences of
a non-empty pattern, scanning left to right as Python `str.count` does.  The
first argument is structural fuel; every step consumes at least one
character, so fuel equal to the text length is always sufficient and the
fuel-exhausted case is only reached on the empty text. -/
def countSubGo (w : Txt) : Nat → Txt → Nat
  | 0, _ => 0
  | _ + 1, [] => 0
  | n + 1, c :: cs =>
    if startsWithTxt w (c :: cs) then 1 + countSubGo w n (cs.drop (w.length - 1))
    else countSubGo w n cs

/-- Model of Python `t.count(w)` (non-overlapping substring count; an empty
pattern counts `len(t) + 1` occurrences, as in CPython). -/
def countSub (t w : Txt) : Nat :=
  if w = [] then t.length + 1 else countSubGo w t.length t

/-- Auxiliary recursion for `splitWs` carrying the (reversed) current word. -/
def splitWsAux : Txt → Txt → List Txt
  | cur, [] => if cur = [] then [] else [cur.reverse]
  | cur, c :: rest =>
    if isPySpace c then
      if cur = [] then splitWsAux [] rest else cur.reverse :: splitWsAux [] rest
    else splitWsAux (c :: cur) rest

/-- Model of Python `str.split()` with no argument: split on runs of
whitespace, discarding empty fields. -/
def splitWs (t : Txt) : List Txt := splitWsAux [] t

/-- Model of Python `str.strip()`: remove leading and trailing whitespace. -/
def stripTxt (t : Txt) : Txt :=
  ((t.dropWhile isPySpace).reverse.dropWhile isPySpace).reverse

/-- Auxiliary recursion for `splitOnSep` carrying the (reversed) current
field; splits at the leftmost occurrence of the separator and repeats.  The
first argument is structural fuel; every step consumes at least one
character, so fuel equal to the text length is always sufficient and the
fuel-exhausted case is only reached on the empty text. -/
def splitOnSepGo (sep : Txt) : Nat → Txt → Txt → List Txt
  | 0, acc, _ => [acc.reverse]
  | _ + 1, acc, [] => [acc.reverse]
  | n + 1, acc, c :: cs =>
    if sep ≠ [] ∧ startsWithTxt sep (c :: cs) then
      acc.reverse :: splitOnSepGo sep n [] (cs.drop (sep.length - 1))
    else splitOnSepGo sep n (c :: acc) cs

/-- Model of Python `t.split(sep)` for a non-empty separator. -/
def splitOnSep (sep t : Txt) : List Txt := splitOnSepGo sep t.length [] t

/-- Model of Python `sep.join(parts)`. -/
def joinSep (sep : Txt) (parts : List Txt) : Txt := List.intercalate sep parts

/-- Replace every occurrence of `old` (non-empty) by `new`, scanning left to
right without overlap: model of Python `t.replace(old, new)`. -/
def replaceAll (old new : Txt) : Txt → Txt
  | [] => []
  | c :: cs =>
    if old ≠ [] ∧ startsWithTxt old (c :: cs) then
      new ++ replaceAll old new (cs.drop (old.length - 1))
    else c :: replaceAll old new cs
termination_by t => t.length
decreasing_by
  · simp only [List.length_cons, List.length_drop]
    omega
  · simp only [List.length_cons]
    omega

/-- Floor of a rational as an explicitly computable integer division (the
denominator of a normalized `Rat` is positive, so flooring division of the
numerator by the denominator is the mathematical floor). -/
def ratFloor (q : ℚ) : ℤ := Int.fdiv q.num q.den

/-- Rounding half-to-even of a rational to an integer, the rounding rule of
Python `round`. -/
def roundHalfEven (q : ℚ) : ℤ :=
  let f := ratFloor q
  let r := q - f
  if r < 1/2 then f
  else if 1/2 < r then f + 1
  else if f % 2 = 0 then f else f + 1

/-- Model of Python `round(q, 2)` as exact decimal rounding (half-to-even). -/
def round2 (q : ℚ) : ℚ := (roundHalfEven (q * 100) : ℚ) / 100

/-- Computable floor agrees with the mathematical floor. -/
theorem ratFloor_eq_floor (q : ℚ) : ratFloor q = ⌊q⌋ := by
  unfold ratFloor
  rw [Rat.floor_def]
  exact Int.fdiv_eq_ediv _ (Int.natCast_nonneg _)

/-- Rounding of zero. -/
theorem round2_zero : round2 0 = 0 := by
  unfold round2 roundHalfEven
  rw [ratFloor_eq_floor]
  norm_num

/-- Concrete rounding fact used for the density counterexample:
66.666… rounds to 66.67. -/
theorem round2_two_thirds_pct : round2 ((200 : ℚ)/3) = 6667/100 := by
  have h1 : ((200 : ℚ)/3) * 100 = ((20000 : ℤ) : ℚ) / ((3 : ℕ) : ℚ) := by
    push_cast
    ring
  have h2 : (20000 : ℤ) / ((3 : ℕ) : ℤ) = 6666 := by decide
  have h3 : ⌊((200 : ℚ)/3) * 100⌋ = 6666 := by
    rw [h1, Rat.floor_intCast_div_natCast, h2]
  unfold round2 roundHalfEven
  rw [ratFloor_eq_floor, h3]
  have h4 : ¬(((200 : ℚ)/3) * 100 - ((6666 : ℤ) : ℚ) < 1/2) := by
    push_cast
    norm_num
  have h5 : (1/2 : ℚ) < ((200 : ℚ)/3) * 100 - ((6666 : ℤ) : ℚ) := by
    push_cast
    norm_num
  rw [if_neg h4, if_pos h5]
  norm_num

/-! ## SEO optimizer: keyword density and scoring
Embedding of `backend/core/seo_optimizer.py`. -/

/-- Entry of the keyword-density report: the `{"count", "density",
"optimal"}` dictionary built by `SEOOptimizer._calculate_keyword_density`
(seo_optimizer.py lines 97-119). -/
structure DensityEntry where
  count : Nat
  density : ℚ
  optimal : Bool
deriving DecidableEq, Repr

/-- Python dict insertion on an association list: replace the value at an
existing key in place, else append the new pair. -/
def dictInsert (k : Txt) (v : DensityEntry) :
    List (Txt × DensityEntry) → List (Txt × DensityEntry)
  | [] => [(k, v)]
  | (k', v') :: rest =>
    if k' = k then (k, v) :: rest else (k', v') :: dictInsert k v rest

/-- Density entry computed for one keyword by the loop body of
`_calculate_keyword_density` (seo_optimizer.py lines 103-117): exact word
matches plus substring ("partial") matches, percentage of the total word
count (0 when there are no words), rounded to two decimals for the reported
value; `optimal` compares the unrounded percentage with the configured band
`0.5 ≤ d ≤ 2.5` (`seo_rules["keyword_density"]`). -/
def densityEntryFor (words : List Txt) (keyword : Txt) : DensityEntry :=
  let keywordLower := lowerTxt keyword
  let exactMatches := words.count keywordLower
  let containMatches := (words.filter (fun w => hasSub w keywordLower)).length
  let totalMatches := exactMatches + containMatches
  let totalWords := words.length
  let densityPercentage : ℚ :=
    if 0 < totalWords then ((totalMatches : ℚ) / totalWords) * 100 else 0
  { count := totalMatches
    density := round2 densityPercentage
    optimal := decide ((1/2 : ℚ) ≤ densityPercentage ∧ densityPercentage ≤ 5/2) }

/-- Embedding of `SEOOptimizer._calculate_keyword_density` (seo_optimizer.py
lines 97-119): the word list is `content.lower().split()`, and the loop fills
a dict keyed by the (un-lowered) keyword. -/
def calculateKeywordDensity (content : Txt) (keywords : List Txt) :
    List (Txt × DensityEntry) :=
  let words := splitWs (lowerTxt content)
  keywords.foldl (fun d kw => dictInsert kw (densityEntryFor words kw) d) []

/-- Scan a partial match function over every suffix of the text, returning
the leftmost success: model of `re.search` position scanning. -/
def scanFirst (f : Txt → Option α) : Txt → Option α
  | [] => f []
  | c :: cs =>
    match f (c :: cs) with
    | some r => some r
    | none => scanFirst f cs

/-- Scan a partial match function over the suffixes that begin at a line
start (position 0 or just after a newline): model of `re.search` with
`re.MULTILINE` anchors.  The flag records whether the current position is a
line start. -/
def scanLineStart (f : Txt → Option α) : Bool → Txt → Option α
  | atStart, [] => if atStart then f [] else none
  | atStart, c :: cs =>
    match (if atStart then f (c :: cs) else none) with
    | some r => some r
    | none => scanLineStart f (c = '\n') cs

/-- Consume characters up to and including the first `>` and return the
remainder: the forced extent of `[^>]*>` after an opening tag literal. -/
def findGtSplit : Txt → Option Txt
  | [] => none
  | c :: cs => if c = '>' then some cs else findGtSplit cs

/-- Lazy group of `(.*?)</h1>` (no DOTALL): collect characters until the
first case-insensitive `</h1>`, failing on a newline or the end of input. -/
def closeH1Group : Txt → Option Txt
  | [] => none
  | c :: cs =>
    if ciStartsWith (lit "</h1>") (c :: cs) then some []
    else if c = '\n' then none
    else (closeH1Group cs).map (fun g => c :: g)

/-- Anchored match of `<h1[^>]*>(.*?)</h1>` (IGNORECASE) returning group 1:
after the literal `<h1`, `[^>]*>` is forced to end at the first `>`,
then the lazy group runs to the nearest `</h1>` on the same line. -/
def h1At (t : Txt) : Option Txt :=
  if ciStartsWith (lit "<h1") t then
    match findGtSplit (t.drop 3) with
    | none => none
    | some rest => closeH1Group rest
  else none

/-- Suffix of the text starting at its last character that is not a newline
(used for the backtracking of greedy `\s+` before `(.+)$`). -/
def lastNonNlSuffix : Txt → Option Txt
  | [] => none
  | c :: cs =>
    match lastNonNlSuffix cs with
    | some s => some s
    | none => if c ≠ '\n' then some (c :: cs) else none

/-- Anchored match of `^#\s+(.+)$` (MULTILINE) at a line start, returning
group 1.  Greedy `\s+` takes the maximal whitespace run after `#`; if input
remains, `(.+)` is the run of non-newline characters that follows, otherwise
`\s+` backtracks to the last non-newline whitespace character of the run
(CPython backtracking order). -/
def mdTitleAt (t : Txt) : Option Txt :=
  match t with
  | '#' :: rest =>
    let w := rest.takeWhile isPySpace
    let r := rest.drop w.length
    if w = [] then none
    else if r ≠ [] then some (r.takeWhile (· ≠ '\n'))
    else
      match lastNonNlSuffix (w.drop 1) with
      | some s => some (s.takeWhile (· ≠ '\n'))
      | none => none
  | _ => none

/-- Title extraction of `_evaluate_title` / `_optimize_title` (seo_optimizer.py
lines 154-156 and 245-247): first search the HTML `<h1>` pattern anywhere,
then the Markdown `^#\s+(.+)$` pattern at line starts. -/
def extractTitle (content : Txt) : Option Txt :=
  match scanFirst h1At content with
  | some g => some g
  | none => scanLineStart mdTitleAt true content

/-- Embedding of `SEOOptimizer._evaluate_title` (seo_optimizer.py lines
152-176): 0 without a title; otherwise 0.5 for a length in the 30-60 band
(0.2 outside it) plus 0.5 if any keyword occurs case-insensitively in the
title. -/
def evaluateTitle (content : Txt) (keywords : List Txt) : ℚ :=
  match extractTitle content with
  | none => 0
  | some title =>
    let lengthScore : ℚ :=
      if 30 ≤ title.length ∧ title.length ≤ 60 then 1/2 else 1/5
    let titleLower := lowerTxt title
    let keywordPresent := keywords.any (fun kw => hasSub titleLower (lowerTxt kw))
    lengthScore + (if keywordPresent then 1/2 else 0)

/-- Embedding of `SEOOptimizer._evaluate_keyword_density` (seo_optimizer.py
lines 178-187): fraction of density-dict entries in the optimal band over
the keyword-list length (0 for an empty keyword list). -/
def evaluateKeywordDensity (content : Txt) (keywords : List Txt) : ℚ :=
  let density := calculateKeywordDensity content keywords
  let optimalCount := (density.filter (fun p => p.2.optimal)).length
  if keywords ≠ [] then (optimalCount : ℚ) / keywords.length else 0

/-- Length bound used to justify termination of the tag-counting scan. -/
theorem findGtSplit_length :
    ∀ (l r : Txt), findGtSplit l = some r → r.length < l.length := by
  intro l
  induction l with
  | nil => intro r h; simp [findGtSplit] at h
  | cons c cs ih =>
    intro r h
    simp only [findGtSplit] at h
    split at h
    · cases h
      simp only [List.length_cons]
      omega
    · have := ih r h
      simp only [List.length_cons]
      omega

/-- Count of non-overlapping matches of `<hN[^>]*>` (IGNORECASE) as computed
by `re.findall` in `_evaluate_content_structure`: each match runs from a
case-insensitive occurrence of the opening literal to the first following
`>`, and scanning resumes after the match. -/
def countTagFrom (tag : Txt) : Txt → Nat
  | [] => 0
  | c :: cs =>
    match h : (if ciStartsWith tag (c :: cs) then findGtSplit ((c :: cs).drop tag.length) else none) with
    | some rest => 1 + countTagFrom tag rest
    | none => countTagFrom tag cs
termination_by t => t.length
decreasing_by
  · split at h
    · have h1 := findGtSplit_length _ _ h
      have h2 : ((c :: cs).drop tag.length).length ≤ (c :: cs).length := by
        simp [List.length_drop]
      omega
    · simp at h
  · simp only [List.length_cons]
    omega

/-- Embedding of `SEOOptimizer._evaluate_content_structure` (seo_optimizer.py
lines 189-205): 0.3 / 0.4 / 0.3 for the presence of `<h1>` / `<h2>` /
`<h3>` tags, capped at 1. -/
def evaluateContentStructure (content : Txt) : ℚ :=
  let h1Count := countTagFrom (lit "<h1") content
  let h2Count := countTagFrom (lit "<h2") content
  let h3Count := countTagFrom (lit "<h3") content
  let score : ℚ :=
    (if 0 < h1Count then (3 : ℚ)/10 else 0) +
    (if 0 < h2Count then (2 : ℚ)/5 else 0) +
    (if 0 < h3Count then (3 : ℚ)/10 else 0)
  min score 1

/-- Embedding of `SEOOptimizer._evaluate_content_length` (seo_optimizer.py
lines 207-216): 1 inside the 300-2000 word band, 0.3 below it, 0.7 above. -/
def evaluateContentLength (content : Txt) : ℚ :=
  let wordCount := (splitWs content).length
  if 300 ≤ wordCount ∧ wordCount ≤ 2000 then 1
  else if wordCount < 300 then 3/10
  else 7/10

/-- Quote characters of the `["\']` character class (double quote, single
quote), written via code points to keep the sources free of quote-character
literals. -/
def isQuote (c : Char) : Bool := c = Char.ofNat 34 ∨ c = Char.ofNat 39

/-- Anchored match of `name=["\']description["\']` returning the remainder. -/
def nameCheckAt (t : Txt) : Option Txt :=
  if ciStartsWith (lit "name=") t then
    match t.drop 5 with
    | q1 :: rest1 =>
      if isQuote q1 ∧ ciStartsWith (lit "description") rest1 then
        match rest1.drop 11 with
        | q2 :: rest2 => if isQuote q2 then some rest2 else none
        | [] => none
      else none
    | [] => none
  else none

/-- Anchored match of `content=["\']([^"\']*)["\']` returning group 1. -/
def contentCheckAt (t : Txt) : Option Txt :=
  if ciStartsWith (lit "content=") t then
    match t.drop 8 with
    | q :: rest =>
      if isQuote q then
        let v := rest.takeWhile (fun c => ¬ isQuote c)
        if rest.drop v.length ≠ [] then some v else none
      else none
    | [] => none
  else none

/-- Candidate continuation points for a greedy `[^>]*`, longest consumption
first (CPython backtracking order): the suffixes obtained by dropping
`n, n-1, …, 0` characters, where `n` is the length of the maximal
`>`-free run. -/
def backtrackDrops (t : Txt) : List Txt :=
  let n := (t.takeWhile (· ≠ '>')).length
  (List.range (n + 1)).map (fun i => t.drop (n - i))

/-- First success of a partial match function over a candidate list. -/
def firstSomeList (f : Txt → Option α) : List Txt → Option α
  | [] => none
  | x :: xs =>
    match f x with
    | some r => some r
    | none => firstSomeList f xs

/-- Anchored match of the meta-description pattern
`<meta[^>]*name=["\']description["\'][^>]*content=["\']([^"\']*)["\']`
(IGNORECASE) returning group 1, with greedy backtracking over both `[^>]*`
gaps. -/
def metaGroupAt (t : Txt) : Option Txt :=
  if ciStartsWith (lit "<meta") t then
    firstSomeList
      (fun cand =>
        match nameCheckAt cand with
        | some rest => firstSomeList contentCheckAt (backtrackDrops rest)
        | none => none)
      (backtrackDrops (t.drop 5))
  else none

/-- Embedding of `SEOOptimizer._evaluate_meta_description` (seo_optimizer.py
lines 218-229): 1 for a meta description of length 120-160, 0.5 for one of
any other length, 0 when absent. -/
def evaluateMetaDescription (content : Txt) : ℚ :=
  match scanFirst metaGroupAt content with
  | none => 0
  | some meta =>
    if 120 ≤ meta.length ∧ meta.length ≤ 160 then 1 else 1/2

/-- Attempt of the tail `href=["\']([^"\']*)["\'][^>]*>` of the link
pattern at one backtracking candidate, returning the remainder after the
whole match: the literal `href=`, one quote character, the greedy
quote-free group, a closing quote character, then zero or more non-`>`
characters and a mandatory `>`.  The backtracking `[^>]*` can only end at
the first `>` after the closing quote, so the attempt fails when no `>`
follows, and the match resumes just past that `>`. -/
def linkTryAt (cand : Txt) : Option Txt :=
  let after := cand.drop 5
  if startsWithTxt (lit "href=") cand ∧ after ≠ [] ∧ isQuote (after.headD ' ') then
    let rest := after.tail
    let after2 := rest.drop (rest.takeWhile (fun c => ¬ isQuote c)).length
    if after2 ≠ [] then
      let after3 := after2.tail
      let after4 := after3.drop (after3.takeWhile (· ≠ '>')).length
      if after4 ≠ [] then some after4.tail else none
    else none
  else none

/-- Anchored match of `<a[^>]*href=["\']([^"\']*)["\'][^>]*>` (case
sensitive, the pattern of `_evaluate_internal_links`, seo_optimizer.py line
233) returning the remainder after the whole match, for non-overlapping
`re.findall` counting. -/
def linkMatchAt (t : Txt) : Option Txt :=
  if startsWithTxt (lit "<a") t then
    firstSomeList linkTryAt (backtrackDrops (t.drop 2))
  else none

/-- Matching prefixes are no longer than the text. -/
theorem startsWithTxt_length :
    ∀ (w t : Txt), startsWithTxt w t = true → w.length ≤ t.length := by
  intro w
  induction w with
  | nil => intro t _; simp
  | cons p ps ih =>
    intro t h
    cases t with
    | nil => simp [startsWithTxt] at h
    | cons c cs =>
      simp only [startsWithTxt, Bool.and_eq_true] at h
      have := ih cs h.2
      simp only [List.length_cons]
      omega

/-- Prefix kept by `takeWhile` is no longer than the list. -/
theorem takeWhileLen (p : Char → Bool) :
    ∀ (l : Txt), (l.takeWhile p).length ≤ l.length := by
  intro l
  induction l with
  | nil => simp
  | cons c cs ih =>
    rw [List.takeWhile_cons]
    split
    · simp only [List.length_cons]
      have := ih
      omega
    · simp only [List.length_nil, List.length_cons]
      omega

/-- Dropping any count never lengthens a list. -/
theorem dropLen (k : Nat) (l : Txt) : (l.drop k).length ≤ l.length := by
  simp [List.length_drop]

/-- Successful scan of `firstSomeList` comes from some candidate. -/
theorem firstSomeList_mem {f : Txt → Option α} {l : List Txt} {r : α}
    (h : firstSomeList f l = some r) : ∃ x ∈ l, f x = some r := by
  induction l with
  | nil => simp [firstSomeList] at h
  | cons x xs ih =>
    simp only [firstSomeList] at h
    cases hx : f x with
    | some r' =>
      rw [hx] at h
      exact ⟨x, List.mem_cons_self x xs, hx.trans h⟩
    | none =>
      rw [hx] at h
      obtain ⟨y, hy, hfy⟩ := ih h
      exact ⟨y, List.mem_cons_of_mem x hy, hfy⟩

/-- Elements produced by `backtrackDrops` are drops of the scanned text. -/
theorem backtrackDrops_mem {t x : Txt} (h : x ∈ backtrackDrops t) :
    ∃ k, x = t.drop k := by
  simp only [backtrackDrops, List.mem_map, List.mem_range] at h
  obtain ⟨i, _, hx⟩ := h
  exact ⟨_, hx.symm⟩

/-- Length bound for a successful attempt of the link-pattern tail. -/
theorem linkTryAt_length (cand rem : Txt) (h : linkTryAt cand = some rem) :
    rem.length < cand.length := by
  simp only [linkTryAt] at h
  split_ifs at h with h1 h2 h3
  · simp only [Option.some.injEq] at h
    set after := cand.drop 5 with hafter
    set rest := after.tail with hrest
    set k := (rest.takeWhile (fun c => ¬ isQuote c)).length with hk
    set after2 := rest.drop k with hafter2
    set after3 := after2.tail with hafter3
    set k2 := (after3.takeWhile (· ≠ '>')).length with hk2
    set after4 := after3.drop k2 with hafter4
    have a1 : after.length = cand.length - 5 := by
      rw [hafter, List.length_drop]
    have a2 : 0 < after.length := List.length_pos.mpr h1.2.1
    have a3 : rest.length = after.length - 1 := by
      rw [hrest, List.length_tail]
    have a4 : after2.length = rest.length - k := by
      rw [hafter2, List.length_drop]
    have a5 : 0 < after2.length := List.length_pos.mpr h2
    have a6 : after3.length = after2.length - 1 := by
      rw [hafter3, List.length_tail]
    have a7 : after4.length = after3.length - k2 := by
      rw [hafter4, List.length_drop]
    have a8 : 0 < after4.length := List.length_pos.mpr h3
    have a9 : rem.length = after4.length - 1 := by
      rw [← h, List.length_tail]
    omega

/-- Length bound used to justify termination of the link-counting scan. -/
theorem linkMatchAt_length :
    ∀ (t rem : Txt), linkMatchAt t = some rem → rem.length < t.length := by
  intro t rem h
  simp only [linkMatchAt] at h
  split at h
  · obtain ⟨x, hx, hfx⟩ := firstSomeList_mem h
    obtain ⟨k, hk⟩ := backtrackDrops_mem hx
    have h1 := linkTryAt_length x rem hfx
    have h2 : x.length = (t.drop 2).length - k := by
      rw [hk, List.length_drop]
    have h3 : (t.drop 2).length = t.length - 2 := by
      rw [List.length_drop]
    rename_i hs
    have h4 : 2 ≤ t.length := by
      have := startsWithTxt_length (lit "<a") t hs
      simpa [lit] using this
    omega
  · simp at h

/-- Count of non-overlapping matches of the `<a … href=…>` pattern, as
computed by `re.findall` in `_evaluate_internal_links` (seo_optimizer.py
line 233). -/
def countLinksFrom : Txt → Nat
  | [] => 0
  | c :: cs =>
    match h : linkMatchAt (c :: cs) with
    | some rem => 1 + countLinksFrom rem
    | none => countLinksFrom cs
termination_by t => t.length
decreasing_by
  · exact linkMatchAt_length _ _ h
  · simp only [List.length_cons]
    omega

/-- Embedding of `SEOOptimizer._evaluate_internal_links` (seo_optimizer.py
lines 231-240): 1 for at least two links, 0.5 for exactly one, 0 for none. -/
def evaluateInternalLinks (content : Txt) : ℚ :=
  let linkCount := countLinksFrom content
  if 2 ≤ linkCount then 1
  else if linkCount = 1 then 1/2
  else 0

/-- Embedding of `SEOOptimizer._calculate_seo_score` (seo_optimizer.py lines
121-150): weighted sum of the six component scores (weights 20 / 25 / 20 /
15 / 10 / 10), capped at `max_score = 100`. -/
def calculateSeoScore (content : Txt) (keywords : List Txt) : ℚ :=
  let titleScore := evaluateTitle content keywords
  let densityScore := evaluateKeywordDensity content keywords
  let structureScore := evaluateContentStructure content
  let lengthScore := evaluateContentLength content
  let metaScore := evaluateMetaDescription content
  let linksScore := evaluateInternalLinks content
  let score :=
    titleScore * 20 + densityScore * 25 + structureScore * 20 +
    lengthScore * 15 + metaScore * 10 + linksScore * 10
  min score 100

/-! ## Basic lemmas about the density report -/

/-- Membership in a dict after insertion: either the inserted pair or an
existing pair. -/
theorem mem_dictInsert {k k' : Txt} {v v' : DensityEntry}
    {d : List (Txt × DensityEntry)} (h : (k', v') ∈ dictInsert k v d) :
    (k' = k ∧ v' = v) ∨ (k', v') ∈ d := by
  induction d with
  | nil =>
    simp [dictInsert] at h
    exact Or.inl ⟨h.1, h.2⟩
  | cons p rest ih =>
    simp only [dictInsert] at h
    split at h
    · rcases List.mem_cons.mp h with h1 | h1
      · exact Or.inl ⟨congrArg Prod.fst h1, congrArg Prod.snd h1⟩
      · exact Or.inr (List.mem_cons_of_mem _ h1)
    · rcases List.mem_cons.mp h with h1 | h1
      · exact Or.inr (h1 ▸ List.mem_cons_self _ _)
      · rcases ih h1 with h2 | h2
        · exact Or.inl h2
        · exact Or.inr (List.mem_cons_of_mem _ h2)

/-- Every entry of the density report is the entry computed for its key by
the loop body. -/
theorem mem_calculateKeywordDensity {content : Txt} {keywords : List Txt}
    {k : Txt} {e : DensityEntry}
    (h : (k, e) ∈ calculateKeywordDensity content keywords) :
    e = densityEntryFor (splitWs (lowerTxt content)) k := by
  unfold calculateKeywordDensity at h
  set words := splitWs (lowerTxt content) with hw
  suffices H : ∀ (l : List Txt) (acc : List (Txt × DensityEntry)),
      (∀ k' e', (k', e') ∈ acc → e' = densityEntryFor words k') →
      (k, e) ∈ l.foldl (fun d kw => dictInsert kw (densityEntryFor words kw) d) acc →
      e = densityEntryFor words k by
    exact H keywords [] (by simp) h
  intro l
  induction l with
  | nil =>
    intro acc hacc hmem
    exact hacc k e hmem
  | cons kw rest ih =>
    intro acc hacc hmem
    simp only [List.foldl_cons] at hmem
    refine ih _ ?_ hmem
    intro k' e' h'
    rcases mem_dictInsert h' with ⟨h1, h2⟩ | h1
    · rw [h2, h1]
    · exact hacc k' e' h1

/-- Length of a dict grows by at most one on insertion. -/
theorem dictInsert_length (k : Txt) (v : DensityEntry)
    (d : List (Txt × DensityEntry)) :
    (dictInsert k v d).length ≤ d.length + 1 := by
  induction d with
  | nil => simp [dictInsert]
  | cons p rest ih =>
    simp only [dictInsert]
    split
    · simp
    · simp only [List.length_cons]
      omega

/-- The density report has at most one entry per keyword. -/
theorem calculateKeywordDensity_length (content : Txt) (keywords : List Txt) :
    (calculateKeywordDensity content keywords).length ≤ keywords.length := by
  unfold calculateKeywordDensity
  set words := splitWs (lowerTxt content) with hw
  suffices H : ∀ (l : List Txt) (acc : List (Txt × DensityEntry)),
      (l.foldl (fun d kw => dictInsert kw (densityEntryFor words kw) d) acc).length ≤
        acc.length + l.length by
    simpa using H keywords []
  intro l
  induction l with
  | nil => intro acc; simp
  | cons kw rest ih =>
    intro acc
    simp only [List.foldl_cons, List.length_cons]
    have h1 := ih (dictInsert kw (densityEntryFor words kw) acc)
    have h2 := dictInsert_length kw (densityEntryFor words kw) acc
    omega

/-! ## Bounds of the six SEO score components -/

/-- Title component lies in the unit interval. -/
theorem evaluateTitle_bounds (content : Txt) (keywords : List Txt) :
    0 ≤ evaluateTitle content keywords ∧ evaluateTitle content keywords ≤ 1 := by
  unfold evaluateTitle
  cases extractTitle content with
  | none => norm_num
  | some title =>
    simp only
    split_ifs <;> norm_num

/-- Density component lies in the unit interval. -/
theorem evaluateKeywordDensity_bounds (content : Txt) (keywords : List Txt) :
    0 ≤ evaluateKeywordDensity content keywords ∧
      evaluateKeywordDensity content keywords ≤ 1 := by
  unfold evaluateKeywordDensity
  split_ifs with h
  · have hlen : ((calculateKeywordDensity content keywords).filter
        (fun p => p.2.optimal)).length ≤ keywords.length := by
      calc ((calculateKeywordDensity content keywords).filter (fun p => p.2.optimal)).length
          ≤ (calculateKeywordDensity content keywords).length := List.length_filter_le _ _
        _ ≤ keywords.length := calculateKeywordDensity_length content keywords
    have hpos : (0 : ℚ) < keywords.length := by
      have : keywords.length ≠ 0 := fun hc => h (List.length_eq_zero.mp hc)
      positivity
    constructor
    · positivity
    · rw [div_le_one hpos]
      exact_mod_cast hlen
  · norm_num

/-- Structure component lies in the unit interval. -/
theorem evaluateContentStructure_bounds (content : Txt) :
    0 ≤ evaluateContentStructure content ∧ evaluateContentStructure content ≤ 1 := by
  unfold evaluateContentStructure
  constructor
  · apply le_min _ (by norm_num)
    split_ifs <;> norm_num
  · exact min_le_right _ _

/-- Length component lies in the unit interval. -/
theorem evaluateContentLength_bounds (content : Txt) :
    0 ≤ evaluateContentLength content ∧ evaluateContentLength content ≤ 1 := by
  unfold evaluateContentLength
  dsimp only
  split_ifs <;> norm_num

/-- Meta component lies in the unit interval. -/
theorem evaluateMetaDescription_bounds (content : Txt) :
    0 ≤ evaluateMetaDescription content ∧ evaluateMetaDescription content ≤ 1 := by
  unfold evaluateMetaDescription
  cases scanFirst metaGroupAt content with
  | none => norm_num
  | some meta =>
    simp only
    split_ifs <;> norm_num

/-- Links component lies in the unit interval. -/
theorem evaluateInternalLinks_bounds (content : Txt) :
    0 ≤ evaluateInternalLinks content ∧ evaluateInternalLinks content ≤ 1 := by
  unfold evaluateInternalLinks
  dsimp only
  split_ifs <;> norm_num

/-- Claim C4: for every text and keyword list, the total SEO score equals
`titleScore*20 + densityScore*25 + structureScore*20 + lengthScore*15 +
metaScore*10 + linksScore*10`, each of the six component scores lies in
[0, 1], and consequently the total lies in [0, 100]. -/
theorem c4_seo_score_weighted_sum (content : Txt) (keywords : List Txt) :
    calculateSeoScore content keywords =
      evaluateTitle content keywords * 20 +
      evaluateKeywordDensity content keywords * 25 +
      evaluateContentStructure content * 20 +
      evaluateContentLength content * 15 +
      evaluateMetaDescription content * 10 +
      evaluateInternalLinks content * 10 ∧
    (0 ≤ evaluateTitle content keywords ∧ evaluateTitle content keywords ≤ 1) ∧
    (0 ≤ evaluateKeywordDensity content keywords ∧
      evaluateKeywordDensity content keywords ≤ 1) ∧
    (0 ≤ evaluateContentStructure content ∧ evaluateContentStructure content ≤ 1) ∧
    (0 ≤ evaluateContentLength content ∧ evaluateContentLength content ≤ 1) ∧
    (0 ≤ evaluateMetaDescription content ∧ evaluateMetaDescription content ≤ 1) ∧
    (0 ≤ evaluateInternalLinks content ∧ evaluateInternalLinks content ≤ 1) ∧
    0 ≤ calculateSeoScore content keywords ∧
    calculateSeoScore content keywords ≤ 100 := by
  obtain ⟨t0, t1⟩ := evaluateTitle_bounds content keywords
  obtain ⟨d0, d1⟩ := evaluateKeywordDensity_bounds content keywords
  obtain ⟨s0, s1⟩ := evaluateContentStructure_bounds content
  obtain ⟨l0, l1⟩ := evaluateContentLength_bounds content
  obtain ⟨m0, m1⟩ := evaluateMetaDescription_bounds content
  obtain ⟨i0, i1⟩ := evaluateInternalLinks_bounds content
  have hsum : evaluateTitle content keywords * 20 +
      evaluateKeywordDensity content keywords * 25 +
      evaluateContentStructure content * 20 +
      evaluateContentLength content * 15 +
      evaluateMetaDescription content * 10 +
      evaluateInternalLinks content * 10 ≤ 100 := by nlinarith
  have hsum0 : 0 ≤ evaluateTitle content keywords * 20 +
      evaluateKeywordDensity content keywords * 25 +
      evaluateContentStructure content * 20 +
      evaluateContentLength content * 15 +
      evaluateMetaDescription content * 10 +
      evaluateInternalLinks content * 10 := by nlinarith
  have heq : calculateSeoScore content keywords =
      evaluateTitle content keywords * 20 +
      evaluateKeywordDensity content keywords * 25 +
      evaluateContentStructure content * 20 +
      evaluateContentLength content * 15 +
      evaluateMetaDescription content * 10 +
      evaluateInternalLinks content * 10 := by
    unfold calculateSeoScore
    exact min_eq_left hsum
  refine ⟨heq, ⟨t0, t1⟩, ⟨d0, d1⟩, ⟨s0, s1⟩, ⟨l0, l1⟩, ⟨m0, m1⟩, ⟨i0, i1⟩, ?_, ?_⟩
  · rw [heq]; exact hsum0
  · rw [heq]; exact hsum

/-- Claim C5: for every keyword list (including the empty list), computing
keyword density on empty text returns count 0 and density 0 for every
keyword; the division by the total word count is guarded when the text has
zero words, so the (total) computation never fails. -/
theorem c5_density_empty_text (keywords : List Txt) (kw : Txt) (e : DensityEntry)
    (h : (kw, e) ∈ calculateKeywordDensity [] keywords) :
    e.count = 0 ∧ e.density = 0 := by
  have he := mem_calculateKeywordDensity h
  have hw : splitWs (lowerTxt ([] : Txt)) = [] := rfl
  rw [hw] at he
  rw [he]
  unfold densityEntryFor
  simp only [List.count_nil, List.filter_nil, List.length_nil, lt_self_iff_false,
    if_false]
  exact ⟨trivial, round2_zero⟩

/-- Witness for C5 at the concrete keyword list `["ai"]`. -/
theorem c5_density_empty_text_witness :
    ((lit "ai", densityEntryFor (splitWs (lowerTxt ([] : Txt))) (lit "ai")) ∈
        calculateKeywordDensity [] [lit "ai"]) ∧
      (densityEntryFor (splitWs (lowerTxt ([] : Txt))) (lit "ai")).count = 0 ∧
      (densityEntryFor (splitWs (lowerTxt ([] : Txt))) (lit "ai")).density = 0 := by
  have hmem : (lit "ai", densityEntryFor (splitWs (lowerTxt ([] : Txt))) (lit "ai")) ∈
      calculateKeywordDensity [] [lit "ai"] := by
    rw [show calculateKeywordDensity [] [lit "ai"] =
      [(lit "ai", densityEntryFor (splitWs (lowerTxt ([] : Txt))) (lit "ai"))] from rfl]
    exact List.mem_singleton.mpr rfl
  exact ⟨hmem, c5_density_empty_text [lit "ai"] (lit "ai") _ hmem⟩

/-- Counterexample to claim C8 as stated: on the text "alpha beta gamma"
with keyword "alpha" the match count is 2 (one exact plus one substring
match) over 3 words, so the raw formula percentage is (2/3)·100 = 200/3 =
66.666…, but the reported `density` value is the rounded 66.67 = 6667/100,
which differs from the raw formula value. -/
theorem c8_counterexample :
    (densityEntryFor (splitWs (lowerTxt (lit "alpha beta gamma"))) (lit "alpha")).count = 2 ∧
    (splitWs (lowerTxt (lit "alpha beta gamma"))).length = 3 ∧
    (densityEntryFor (splitWs (lowerTxt (lit "alpha beta gamma"))) (lit "alpha")).density =
      6667/100 ∧
    (densityEntryFor (splitWs (lowerTxt (lit "alpha beta gamma"))) (lit "alpha")).density ≠
      (((densityEntryFor (splitWs (lowerTxt (lit "alpha beta gamma"))) (lit "alpha")).count : ℚ) /
        ((splitWs (lowerTxt (lit "alpha beta gamma"))).length : ℚ)) * 100 := by
  have hc : (splitWs (lowerTxt (lit "alpha beta gamma"))).count (lowerTxt (lit "alpha")) = 1 := by
    decide
  have hf : ((splitWs (lowerTxt (lit "alpha beta gamma"))).filter
      (fun w => hasSub w (lowerTxt (lit "alpha")))).length = 1 := by
    decide
  have hlen : (splitWs (lowerTxt (lit "alpha beta gamma"))).length = 3 := by
    decide
  have hcount : (densityEntryFor (splitWs (lowerTxt (lit "alpha beta gamma"))) (lit "alpha")).count = 2 := by
    unfold densityEntryFor
    dsimp only
    rw [hc, hf]
  have hdens : (densityEntryFor (splitWs (lowerTxt (lit "alpha beta gamma"))) (lit "alpha")).density =
      6667/100 := by
    unfold densityEntryFor
    dsimp only
    rw [hc, hf, hlen]
    rw [if_pos (by norm_num)]
    rw [show (((1 + 1 : ℕ) : ℚ) / ((3 : ℕ) : ℚ)) * 100 = (200 : ℚ)/3 by push_cast; ring]
    exact round2_two_thirds_pct
  refine ⟨hcount, hlen, hdens, ?_⟩
  rw [hdens, hcount, hlen]
  norm_num

/-- Claim C8 (amended): for every text with at least one word and every
keyword, the density-report entry records `count = exactMatches +
substringMatches`, the reported density equals the raw percentage
`count / totalWords × 100` rounded to two decimals, and `withinTarget`
holds iff the unrounded percentage lies in the band 0.5 ≤ d ≤ 2.5. -/
theorem c8_density_formula_rounded (content : Txt) (keywords : List Txt)
    (kw : Txt) (e : DensityEntry)
    (hmem : (kw, e) ∈ calculateKeywordDensity content keywords)
    (hpos : 0 < (splitWs (lowerTxt content)).length) :
    e.count = (splitWs (lowerTxt content)).count (lowerTxt kw) +
      ((splitWs (lowerTxt content)).filter
        (fun w => hasSub w (lowerTxt kw))).length ∧
    e.density = round2 ((((splitWs (lowerTxt content)).count (lowerTxt kw) +
      ((splitWs (lowerTxt content)).filter
        (fun w => hasSub w (lowerTxt kw))).length : ℚ) /
      (splitWs (lowerTxt content)).length) * 100) ∧
    (e.optimal = true ↔
      ((1/2 : ℚ) ≤ (((splitWs (lowerTxt content)).count (lowerTxt kw) +
          ((splitWs (lowerTxt content)).filter
            (fun w => hasSub w (lowerTxt kw))).length : ℚ) /
          (splitWs (lowerTxt content)).length) * 100 ∧
        (((splitWs (lowerTxt content)).count (lowerTxt kw) +
          ((splitWs (lowerTxt content)).filter
            (fun w => hasSub w (lowerTxt kw))).length : ℚ) /
          (splitWs (lowerTxt content)).length) * 100 ≤ 5/2)) := by
  have he := mem_calculateKeywordDensity hmem
  rw [he]
  unfold densityEntryFor
  simp only [if_pos hpos]
  refine ⟨by trivial, by push_cast; ring_nf, ?_⟩
  rw [decide_eq_true_iff]
  constructor <;> intro hx <;> (push_cast at hx ⊢; constructor)
  · exact hx.1
  · exact hx.2
  · exact hx.1
  · exact hx.2

/-- Witness for C8 (amended) at the concrete text "alpha beta gamma" and
keyword "alpha". -/
theorem c8_density_formula_rounded_witness :
    ((lit "alpha", densityEntryFor (splitWs (lowerTxt (lit "alpha beta gamma"))) (lit "alpha")) ∈
        calculateKeywordDensity (lit "alpha beta gamma") [lit "alpha"]) ∧
      0 < (splitWs (lowerTxt (lit "alpha beta gamma"))).length ∧
      (densityEntryFor (splitWs (lowerTxt (lit "alpha beta gamma"))) (lit "alpha")).density =
        round2 ((((splitWs (lowerTxt (lit "alpha beta gamma"))).count
            (lowerTxt (lit "alpha")) +
          ((splitWs (lowerTxt (lit "alpha beta gamma"))).filter
            (fun w => hasSub w (lowerTxt (lit "alpha")))).length : ℚ) /
          (splitWs (lowerTxt (lit "alpha beta gamma"))).length) * 100) := by
  have hmem : (lit "alpha",
      densityEntryFor (splitWs (lowerTxt (lit "alpha beta gamma"))) (lit "alpha")) ∈
      calculateKeywordDensity (lit "alpha beta gamma") [lit "alpha"] := by
    rw [show calculateKeywordDensity (lit "alpha beta gamma") [lit "alpha"] =
      [(lit "alpha",
        densityEntryFor (splitWs (lowerTxt (lit "alpha beta gamma"))) (lit "alpha"))] from rfl]
    exact List.mem_singleton.mpr rfl
  exact ⟨hmem, by decide,
    (c8_density_formula_rounded (lit "alpha beta gamma") [lit "alpha"]
      (lit "alpha") _ hmem (by decide)).2.1⟩

/-! ## Plagiarism and fact checker
Embedding of `backend/core/plagiarism_checker.py`.  The fact-verification
bucket is selected from an MD5 hash (`hashlib.md5(fact.encode())`), so a
full executable MD5 implementation over byte lists is included; bytes and
32-bit words are `Nat` values reduced modulo 2^8 / 2^32 explicitly. -/

/-- UTF-8 encoding of one character (model of Python `str.encode()`). -/
def utf8EncodeChar (c : Char) : List Nat :=
  let n := c.toNat
  if n < 0x80 then [n]
  else if n < 0x800 then [0xC0 + n / 0x40, 0x80 + n % 0x40]
  else if n < 0x10000 then
    [0xE0 + n / 0x1000, 0x80 + (n / 0x40) % 0x40, 0x80 + n % 0x40]
  else
    [0xF0 + n / 0x40000, 0x80 + (n / 0x1000) % 0x40, 0x80 + (n / 0x40) % 0x40,
      0x80 + n % 0x40]

/-- UTF-8 encoding of a text as a byte list. -/
def utf8Encode : Txt → List Nat
  | [] => []
  | c :: cs => utf8EncodeChar c ++ utf8Encode cs

/-- MD5 round constants (radians sine table, RFC 1321). -/
def md5K : List Nat :=
  [0xd76aa478, 0xe8c7b756, 0x242070db, 0xc1bdceee,
   0xf57c0faf, 0x4787c62a, 0xa8304613, 0xfd469501,
   0x698098d8, 0x8b44f7af, 0xffff5bb1, 0x895cd7be,
   0x6b901122, 0xfd987193, 0xa679438e, 0x49b40821,
   0xf61e2562, 0xc040b340, 0x265e5a51, 0xe9b6c7aa,
   0xd62f105d, 0x02441453, 0xd8a1e681, 0xe7d3fbc8,
   0x21e1cde6, 0xc33707d6, 0xf4d50d87, 0x455a14ed,
   0xa9e3e905, 0xfcefa3f8, 0x676f02d9, 0x8d2a4c8a,
   0xfffa3942, 0x8771f681, 0x6d9d6122, 0xfde5380c,
   0xa4beea44, 0x4bdecfa9, 0xf6bb4b60, 0xbebfbc70,
   0x289b7ec6, 0xeaa127fa, 0xd4ef3085, 0x04881d05,
   0xd9d4d039, 0xe6db99e5, 0x1fa27cf8, 0xc4ac5665,
   0xf4292244, 0x432aff97, 0xab9423a7, 0xfc93a039,
   0x655b59c3, 0x8f0ccc92, 0xffeff47d, 0x85845dd1,
   0x6fa87e4f, 0xfe2ce6e0, 0xa3014314, 0x4e0811a1,
   0xf7537e82, 0xbd3af235, 0x2ad7d2bb, 0xeb86d391]

/-- MD5 per-round left-rotation amounts (RFC 1321). -/
def md5S : List Nat :=
  [7, 12, 17, 22, 7, 12, 17, 22, 7, 12, 17, 22, 7, 12, 17, 22,
   5, 9, 14, 20, 5, 9, 14, 20, 5, 9, 14, 20, 5, 9, 14, 20,
   4, 11, 16, 23, 4, 11, 16, 23, 4, 11, 16, 23, 4, 11, 16, 23,
   6, 10, 15, 21, 6, 10, 15, 21, 6, 10, 15, 21, 6, 10, 15, 21]

/-- Left rotation of a 32-bit word represented as a `Nat` below 2^32. -/
def rotl32 (x s : Nat) : Nat :=
  ((x * 2 ^ s) % 2 ^ 32) + (x / 2 ^ (32 - s))

/-- Bitwise complement of a 32-bit word. -/
def not32 (x : Nat) : Nat := 2 ^ 32 - 1 - x % 2 ^ 32

/-- MD5 padding: append the 0x80 byte, zero bytes up to 56 mod 64, and the
original bit length as a 64-bit little-endian quantity. -/
def md5Pad (msg : List Nat) : List Nat :=
  let len := msg.length
  let zeros := (120 - (len + 1) % 64) % 64
  let bitLen := (len * 8) % 2 ^ 64
  msg ++ [0x80] ++ List.replicate zeros 0 ++
    ((List.range 8).map (fun i => bitLen / 2 ^ (8 * i) % 256))

/-- Little-endian 32-bit words of one 64-byte chunk. -/
def md5Words (chunk : List Nat) : List Nat :=
  (List.range 16).map (fun j =>
    chunk.getD (4 * j) 0 + chunk.getD (4 * j + 1) 0 * 0x100 +
    chunk.getD (4 * j + 2) 0 * 0x10000 + chunk.getD (4 * j + 3) 0 * 0x1000000)

/-- One MD5 round: mixing function and message index per round group. -/
def md5Round (m : List Nat) (st : Nat × Nat × Nat × Nat) (i : Nat) :
    Nat × Nat × Nat × Nat :=
  let (a, b, c, d) := st
  let f :=
    if i < 16 then (b &&& c) ||| (not32 b &&& d)
    else if i < 32 then (d &&& b) ||| (not32 d &&& c)
    else if i < 48 then b ^^^ c ^^^ d
    else c ^^^ (b ||| not32 d)
  let g :=
    if i < 16 then i
    else if i < 32 then (5 * i + 1) % 16
    else if i < 48 then (3 * i + 5) % 16
    else (7 * i) % 16
  let sum := (f + a + md5K.getD i 0 + m.getD g 0) % 2 ^ 32
  (d, (b + rotl32 sum (md5S.getD i 0)) % 2 ^ 32, b, c)

/-- Processing of one 64-byte chunk. -/
def md5Chunk (st : Nat × Nat × Nat × Nat) (chunk : List Nat) :
    Nat × Nat × Nat × Nat :=
  let m := md5Words chunk
  let (a, b, c, d) := (List.range 64).foldl (md5Round m) st
  let (a0, b0, c0, d0) := st
  ((a0 + a) % 2 ^ 32, (b0 + b) % 2 ^ 32, (c0 + c) % 2 ^ 32, (d0 + d) % 2 ^ 32)

/-- Fold over the successive 64-byte chunks of the padded message; the
first argument is the number of chunks (the padded length is always a
positive multiple of 64). -/
def md5Chunks : Nat → (Nat × Nat × Nat × Nat) → List Nat → Nat × Nat × Nat × Nat
  | 0, st, _ => st
  | n + 1, st, padded => md5Chunks n (md5Chunk st (padded.take 64)) (padded.drop 64)

/-- Little-endian serialization of one 32-bit word to four bytes. -/
def wordBytes (x : Nat) : List Nat :=
  [x % 256, x / 0x100 % 256, x / 0x10000 % 256, x / 0x1000000 % 256]

/-- Full MD5 digest of a byte list, as the 16 digest bytes. -/
def md5Digest (msg : List Nat) : List Nat :=
  let padded := md5Pad msg
  let (a, b, c, d) :=
    md5Chunks (padded.length / 64) (0x67452301, 0xefcdab89, 0x98badcfe, 0x10325476) padded
  wordBytes a ++ wordBytes b ++ wordBytes c ++ wordBytes d

/-- Value of the first two hex characters of the MD5 hexdigest of a text:
`int(hashlib.md5(fact.encode()).hexdigest()[:2], 16)` is exactly the first
digest byte (the low-order byte of the little-endian serialized A word). -/
def md5FirstByte (t : Txt) : Nat := (md5Digest (utf8Encode t)).headD 0

/-- Result of verifying one fact: the dictionary built by
`PlagiarismChecker._verify_fact` (plagiarism_checker.py lines 313-345). -/
structure FactResult where
  status : Txt
  confidence : ℚ
  source : Txt
  fact : Txt
  suggestion : Txt
deriving DecidableEq, Repr

/-- The four fixed verification buckets of `_verify_fact`
(plagiarism_checker.py lines 320-325): status, confidence, source. -/
def verificationResults : List (Txt × ℚ × Txt) :=
  [(lit "verified", 9/10, lit "reliable_source"),
   (lit "disputed", 7/10, lit "multiple_sources"),
   (lit "unverified", 3/10, lit "no_sources"),
   (lit "false", 8/10, lit "fact_check_org")]

/-- Embedding of `PlagiarismChecker._get_fact_suggestion`
(plagiarism_checker.py lines 347-357): canned suggestion per status with a
default for unknown statuses (dict `.get` with default). -/
def getFactSuggestion (status : Txt) : Txt :=
  if status = lit "verified" then
    lit "This fact appears to be accurate based on reliable sources."
  else if status = lit "disputed" then
    lit "This claim is disputed by multiple sources. Consider providing additional context."
  else if status = lit "unverified" then
    lit "This claim could not be verified. Consider adding a source or removing the claim."
  else if status = lit "false" then
    lit "This claim appears to be incorrect. Please verify and correct the information."
  else if status = lit "error" then
    lit "Unable to verify this claim. Please check your sources."
  else lit "Please verify this information."

/-- Embedding of `PlagiarismChecker._verify_fact` (plagiarism_checker.py
lines 313-345): the bucket index is the first byte of the MD5 digest of the
UTF-8 encoded fact (`int(hexdigest[:2], 16)`) modulo the number of buckets;
the selected bucket is copied and extended with the fact and the canned
suggestion for its status.  The list indexing cannot be out of range since
the index is reduced modulo the list length; the `getD` default is
unreachable.  The `except` handler of the source is dead code for string
inputs (the body is total), so it is not modelled. -/
def verifyFact (fact : Txt) : FactResult :=
  let resultIndex := md5FirstByte fact % verificationResults.length
  let base := verificationResults.getD resultIndex (lit "", 0, lit "")
  { status := base.1
    confidence := base.2.1
    source := base.2.2
    fact := fact
    suggestion := getFactSuggestion base.1 }

/-- Common filler phrases checked by `_check_common_phrases`
(plagiarism_checker.py lines 23-27). -/
def commonPhrases : List Txt :=
  [lit "in conclusion", lit "it is important to note", lit "furthermore",
   lit "moreover", lit "however", lit "therefore", lit "as a result",
   lit "in addition", lit "on the other hand", lit "for example"]

/-- Embedding of `PlagiarismChecker._check_common_phrases`
(plagiarism_checker.py lines 99-124): ratio of filler-phrase occurrences in
the lowered text to the word count, mapped through the breakpoints 5% / 3% /
1% to the scores 0.3 / 0.2 / 0.1, with 0 for zero-word text. -/
def checkCommonPhrases (content : Txt) : ℚ :=
  let contentLower := lowerTxt content
  let phraseCount := (commonPhrases.map (fun p => countSub contentLower p)).sum
  let totalWords := (splitWs content).length
  if totalWords = 0 then 0
  else
    let phraseDensity : ℚ := (phraseCount : ℚ) / totalWords
    if 1/20 < phraseDensity then 3/10
    else if 3/100 < phraseDensity then 1/5
    else if 1/100 < phraseDensity then 1/10
    else 0

/-- Boilerplate sentence patterns of `_simulate_exact_match`
(plagiarism_checker.py lines 160-177). -/
def commonPatterns : List Txt :=
  [lit "This is a comprehensive guide", lit "In this article, we will",
   lit "The importance of", lit "It is essential to", lit "As mentioned earlier"]

/-- Embedding of `PlagiarismChecker._simulate_exact_match`: case-insensitive
containment of any boilerplate pattern. -/
def simulateExactMatch (sentence : Txt) : Bool :=
  commonPatterns.any (fun p => hasSub (lowerTxt sentence) (lowerTxt p))

/-- Embedding of `PlagiarismChecker._check_exact_matches`
(plagiarism_checker.py lines 126-158): fraction of `.`-separated sentences
longer than 10 characters (once stripped) matching a boilerplate pattern,
mapped through the breakpoints 10% / 5% / 2% to 0.8 / 0.5 / 0.2.  The
`len(sentences) == 0` guard of the source is preserved although `str.split`
never returns an empty list. -/
def checkExactMatches (content : Txt) : ℚ :=
  let sentences := splitOnSep (lit ". ") content
  let exactMatches := (sentences.filter
    (fun s => 10 < (stripTxt s).length ∧ simulateExactMatch s)).length
  if sentences.length = 0 then 0
  else
    let matchRatio : ℚ := (exactMatches : ℚ) / sentences.length
    if 1/10 < matchRatio then 4/5
    else if 1/20 < matchRatio then 1/2
    else if 1/50 < matchRatio then 1/5
    else 0

/-- Generic structure patterns of `_simulate_similar_content`
(plagiarism_checker.py lines 212-229). -/
def similarStructures : List Txt :=
  [lit "The key benefits include", lit "There are several advantages",
   lit "It is important to consider", lit "This approach provides",
   lit "The main advantages are"]

/-- Embedding of `PlagiarismChecker._simulate_similar_content`. -/
def simulateSimilarContent (paragraph : Txt) : Bool :=
  similarStructures.any (fun p => hasSub (lowerTxt paragraph) (lowerTxt p))

/-- Embedding of `PlagiarismChecker._check_similar_content`
(plagiarism_checker.py lines 179-210): fraction of paragraphs longer than 20
characters (once stripped) matching a generic structure, mapped through the
breakpoints 30% / 15% / 5% to 0.7 / 0.4 / 0.2. -/
def checkSimilarContent (content : Txt) : ℚ :=
  let paragraphs := splitOnSep (lit "\n\n") content
  let similarParagraphs := (paragraphs.filter
    (fun p => 20 < (stripTxt p).length ∧ simulateSimilarContent p)).length
  if paragraphs.length = 0 then 0
  else
    let similarityRatio : ℚ := (similarParagraphs : ℚ) / paragraphs.length
    if 3/10 < similarityRatio then 7/10
    else if 3/20 < similarityRatio then 2/5
    else if 1/20 < similarityRatio then 1/5
    else 0

/-- Python dict counter bump for `_check_copied_sentences`. -/
def bumpCount (k : Txt) : List (Txt × Nat) → List (Txt × Nat)
  | [] => [(k, 1)]
  | (k2, n) :: rest =>
    if k2 = k then (k2, n + 1) :: rest else (k2, n) :: bumpCount k rest

/-- Embedding of `PlagiarismChecker._check_copied_sentences`
(plagiarism_checker.py lines 231-260): count duplicate stripped-lowered
sentences (each extra occurrence counts once), then map the ratio through
the breakpoints 10% / 5% / 2% to 0.6 / 0.3 / 0.1. -/
def checkCopiedSentences (content : Txt) : ℚ :=
  let sentences := splitOnSep (lit ". ") content
  let counts := sentences.foldl
    (fun m s =>
      let clean := lowerTxt (stripTxt s)
      if clean ≠ [] then bumpCount clean m else m) []
  let copiedSentences : Nat := (counts.map (fun p => if 1 < p.2 then p.2 - 1 else 0)).sum
  if sentences.length = 0 then 0
  else
    let copyRatio : ℚ := (copiedSentences : ℚ) / sentences.length
    if 1/10 < copyRatio then 3/5
    else if 1/20 < copyRatio then 3/10
    else if 1/50 < copyRatio then 1/10
    else 0

/-- Embedding of `PlagiarismChecker._check_plagiarism` (plagiarism_checker.py
lines 74-97): arithmetic mean of the four sub-scores, capped at 1.  The
`except` handler is dead code for string inputs (the body is total). -/
def checkPlagiarism (content : Txt) : ℚ :=
  let scores := [checkCommonPhrases content, checkExactMatches content,
    checkSimilarContent content, checkCopiedSentences content]
  let plagiarismScore := scores.sum / scores.length
  min plagiarismScore 1

/-- Python `str.isdigit` restricted to ASCII digits. -/
def isAsciiDigit (c : Char) : Bool := '0' ≤ c ∧ c ≤ '9'

/-- Non-overlapping `re.findall(r'\d{4}', content)`: each match is a run of
exactly four digits, scanning left to right. -/
def findFourDigits : Txt → List Txt
  | [] => []
  | c :: cs =>
    match (c :: cs).take 4 with
    | [a, b, d, e] =>
      if isAsciiDigit a ∧ isAsciiDigit b ∧ isAsciiDigit d ∧ isAsciiDigit e then
        [a, b, d, e] :: findFourDigits ((c :: cs).drop 4)
      else findFourDigits cs
    | _ => findFourDigits cs
termination_by t => t.length
decreasing_by
  all_goals first
    | (simp only [List.length_drop, List.length_cons]; omega)
    | (simp only [List.length_cons]; omega)

/-- Non-overlapping `re.findall(r'\d+%', content)`: a maximal digit run
followed by a percent sign (greedy `\d+` forces the maximal run; a shorter
run would still face a digit, so backtracking cannot succeed). -/
def findPercents : Txt → List Txt
  | [] => []
  | c :: cs =>
    if isAsciiDigit c then
      let run := (c :: cs).takeWhile isAsciiDigit
      let rest := (c :: cs).drop run.length
      if rest.headD ' ' = '%' then (run ++ ['%']) :: findPercents rest.tail
      else findPercents cs
    else findPercents cs
termination_by t => t.length
decreasing_by
  · have h1 := dropLen ((c :: cs).takeWhile isAsciiDigit).length (c :: cs)
    have h2 : (((c :: cs).drop ((c :: cs).takeWhile isAsciiDigit).length).tail).length =
        ((c :: cs).drop ((c :: cs).takeWhile isAsciiDigit).length).length - 1 := by
      rw [List.length_tail]
    have h3 : 0 < ((c :: cs).takeWhile isAsciiDigit).length := by
      rename_i hdig _
      rw [List.takeWhile_cons, if_pos hdig]
      simp
    have h4 : ((c :: cs).drop ((c :: cs).takeWhile isAsciiDigit).length).length =
        (c :: cs).length - ((c :: cs).takeWhile isAsciiDigit).length := by
      rw [List.length_drop]
    simp only [List.length_cons] at h4 ⊢
    omega
  all_goals simp only [List.length_cons]; omega

/-- Non-overlapping `re.findall(r'\$\d+', content)`: a dollar sign followed
by a maximal non-empty digit run. -/
def findDollars : Txt → List Txt
  | [] => []
  | c :: cs =>
    if c = '$' ∧ cs.takeWhile isAsciiDigit ≠ [] then
      ('$' :: cs.takeWhile isAsciiDigit) ::
        findDollars (cs.drop (cs.takeWhile isAsciiDigit).length)
    else findDollars cs
termination_by t => t.length
decreasing_by
  · have h1 : (cs.drop (cs.takeWhile isAsciiDigit).length).length ≤ cs.length := by
      simp [List.length_drop]
    simp only [List.length_cons]
    omega
  · simp only [List.length_cons]
    omega

/-- Non-overlapping `re.findall(pattern + r' [^.]*', content, re.IGNORECASE)`
for an attribution literal: the match is the literal occurrence (matched
case-insensitively, reproduced from the subject text) followed by all
characters up to the next period. -/
def findLiteralTail (pat : Txt) : Txt → List Txt
  | [] => []
  | c :: cs =>
    if pat ≠ [] ∧ ciStartsWith pat (c :: cs) then
      let matched := (c :: cs).take pat.length
      let tail := ((c :: cs).drop pat.length).takeWhile (· ≠ '.')
      (matched ++ tail) ::
        findLiteralTail pat (((c :: cs).drop pat.length).drop tail.length)
    else findLiteralTail pat cs
termination_by t => t.length
decreasing_by
  · rename_i hcond
    have hlen : 0 < pat.length := List.length_pos.mpr hcond.1
    have h3 : ((c :: cs).drop pat.length).length = (c :: cs).length - pat.length := by
      rw [List.length_drop]
    refine lt_of_le_of_lt (dropLen _ _) ?_
    simp only [List.length_cons] at h3 ⊢
    omega
  · simp only [List.length_cons]
    omega

/-- Research-claim keywords of `_extract_facts` (plagiarism_checker.py
line 308). -/
def researchWords : List Txt :=
  [lit "study", lit "research", lit "found", lit "discovered", lit "proved"]

/-- Embedding of `PlagiarismChecker._extract_facts` (plagiarism_checker.py
lines 283-311): regex-extracted fragments (years, percentages, dollar
amounts, attribution phrases), then sentences containing a digit or a
research keyword, truncated to the first 10. -/
def extractFacts (content : Txt) : List Txt :=
  let facts :=
    findFourDigits content ++ findPercents content ++ findDollars content ++
    findLiteralTail (lit "according to ") content ++
    findLiteralTail (lit "studies show ") content ++
    findLiteralTail (lit "research indicates ") content ++
    findLiteralTail (lit "the fact that ") content ++
    findLiteralTail (lit "it is known that ") content
  let sentences := splitOnSep (lit ". ") content
  let fromSentences := sentences.filter
    (fun s => s.any isAsciiDigit ∨
      researchWords.any (fun w => hasSub (lowerTxt s) w))
  (facts ++ fromSentences).take 10

/-- Embedding of `PlagiarismChecker._check_facts` (plagiarism_checker.py
lines 262-281): verify each extracted fact in order. -/
def checkFactsList (content : Txt) : List FactResult :=
  (extractFacts content).map verifyFact

/-- Embedding of `PlagiarismChecker.check` (plagiarism_checker.py lines
42-72): plagiarism score plus fact-check results when requested.  The
`except` handler is dead code for string inputs (the body is total). -/
def check (content : Txt) (checkFactsFlag : Bool) : ℚ × List FactResult :=
  (checkPlagiarism content, if checkFactsFlag then checkFactsList content else [])

/-- Decimal digits of a natural number (model of Python str interpolation
of an `int` in an f-string). -/
def natToTxtAux : Nat → Txt → Txt
  | 0, acc => acc
  | n + 1, acc =>
    natToTxtAux ((n + 1) / 10) (Char.ofNat (48 + (n + 1) % 10) :: acc)
termination_by n => n
decreasing_by
  exact Nat.div_lt_self (Nat.succ_pos n) (by norm_num)

/-- Decimal representation of a natural number. -/
def natToTxt (n : Nat) : Txt := if n = 0 then lit "0" else natToTxtAux n []

/-- Embedding of `PlagiarismChecker.get_recommendations`
(plagiarism_checker.py lines 359-392): one threshold-based plagiarism
message, per-bucket fact messages, and a closing message for clean input. -/
def getRecommendations (plagiarismScore : ℚ) (factCheckResults : List FactResult) :
    List Txt :=
  let base : List Txt :=
    if 4/5 < plagiarismScore then
      [lit "High plagiarism risk detected. Consider rewriting the content completely."]
    else if 3/5 < plagiarismScore then
      [lit "Moderate plagiarism risk. Review and rewrite suspicious sections."]
    else if 3/10 < plagiarismScore then
      [lit "Some plagiarism detected. Consider paraphrasing certain sections."]
    else [lit "Content appears to be original. Good job!"]
  let factPart : List Txt :=
    if factCheckResults ≠ [] then
      let disputedFacts := factCheckResults.filter (fun r => r.status = lit "disputed")
      let falseFacts := factCheckResults.filter (fun r => r.status = lit "false")
      let unverifiedFacts := factCheckResults.filter (fun r => r.status = lit "unverified")
      (if falseFacts ≠ [] then
        [lit "Found " ++ natToTxt falseFacts.length ++
          lit " potentially false claims. Please verify and correct."] else []) ++
      (if disputedFacts ≠ [] then
        [lit "Found " ++ natToTxt disputedFacts.length ++
          lit " disputed claims. Consider providing additional context."] else []) ++
      (if unverifiedFacts ≠ [] then
        [lit "Found " ++ natToTxt unverifiedFacts.length ++
          lit " unverified claims. Consider adding sources or removing claims."] else [])
    else []
  let finalPart : List Txt :=
    if plagiarismScore < 1/5 ∧ factCheckResults = [] then
      [lit "Content appears to be original and factual. Ready for publication!"]
    else []
  base ++ factPart ++ finalPart

/-! ## Claims about the fact checker and plagiarism score -/

/-- Claim C3: for every fact string, repeated invocations of the
fact-verification step return the identical result — same status bucket,
same confidence, same suggestion — because the bucket is a deterministic
pure function of the MD5 hash of the fact text, with no hidden randomness
(every run computes the same `md5FirstByte fact % 4` index). -/
theorem c3_fact_verification_determinism (fact fact2 : Txt) (h : fact = fact2) :
    (verifyFact fact).status = (verifyFact fact2).status ∧
    (verifyFact fact).confidence = (verifyFact fact2).confidence ∧
    (verifyFact fact).suggestion = (verifyFact fact2).suggestion ∧
    verifyFact fact = verifyFact fact2 ∧
    (verifyFact fact).status =
      (verificationResults.getD (md5FirstByte fact % verificationResults.length)
        (lit "", 0, lit "")).1 := by
  subst h
  exact ⟨rfl, rfl, rfl, rfl, rfl⟩

/-- Witness for C3 at the concrete fact "the earth is round". -/
theorem c3_fact_verification_determinism_witness :
    lit "the earth is round" = lit "the earth is round" ∧
    (verifyFact (lit "the earth is round")).status =
      (verifyFact (lit "the earth is round")).status ∧
    verifyFact (lit "the earth is round") = verifyFact (lit "the earth is round") :=
  ⟨rfl, (c3_fact_verification_determinism _ _ rfl).1,
    (c3_fact_verification_determinism (lit "the earth is round")
      (lit "the earth is round") rfl).2.2.2.1⟩

/-- Claim C9: the verification bucket is selected by the first byte of the
MD5 digest of the fact text (the value of `hexdigest()[:2]`) modulo 4,
indexing the fixed four-bucket list verified / disputed / unverified /
false, each bucket carrying its fixed confidence and canned suggestion. -/
theorem c9_hash_bucket_selection (fact : Txt) :
    md5FirstByte fact % 4 < 4 ∧
    (md5FirstByte fact % 4 = 0 →
      verifyFact fact =
        { status := lit "verified"
          confidence := 9/10
          source := lit "reliable_source"
          fact := fact
          suggestion := lit "This fact appears to be accurate based on reliable sources." }) ∧
    (md5FirstByte fact % 4 = 1 →
      verifyFact fact =
        { status := lit "disputed"
          confidence := 7/10
          source := lit "multiple_sources"
          fact := fact
          suggestion := lit "This claim is disputed by multiple sources. Consider providing additional context." }) ∧
    (md5FirstByte fact % 4 = 2 →
      verifyFact fact =
        { status := lit "unverified"
          confidence := 3/10
          source := lit "no_sources"
          fact := fact
          suggestion := lit "This claim could not be verified. Consider adding a source or removing the claim." }) ∧
    (md5FirstByte fact % 4 = 3 →
      verifyFact fact =
        { status := lit "false"
          confidence := 8/10
          source := lit "fact_check_org"
          fact := fact
          suggestion := lit "This claim appears to be incorrect. Please verify and correct the information." }) := by
  have hlen : verificationResults.length = 4 := rfl
  refine ⟨Nat.mod_lt _ (by norm_num), ?_, ?_, ?_, ?_⟩ <;>
    (intro h
     unfold verifyFact
     rw [hlen, h]
     rfl)

/-- Witness for C9: the empty-string fact hashes to digest first byte 0xd4 =
212, bucket 212 % 4 = 0, the "verified" bucket. -/
theorem c9_hash_bucket_selection_witness :
    md5FirstByte (lit "") % 4 = 0 ∧
    verifyFact (lit "") =
      { status := lit "verified"
        confidence := 9/10
        source := lit "reliable_source"
        fact := lit ""
        suggestion := lit "This fact appears to be accurate based on reliable sources." } :=
  ⟨by decide, (c9_hash_bucket_selection (lit "")).2.1 (by decide)⟩

/-- Upper bound of the common-phrase sub-score. -/
theorem checkCommonPhrases_le (content : Txt) : checkCommonPhrases content ≤ 3/10 := by
  unfold checkCommonPhrases
  dsimp only
  split_ifs <;> norm_num

/-- Upper bound of the exact-match sub-score. -/
theorem checkExactMatches_le (content : Txt) : checkExactMatches content ≤ 4/5 := by
  unfold checkExactMatches
  dsimp only
  split_ifs <;> norm_num

/-- Upper bound of the similar-content sub-score. -/
theorem checkSimilarContent_le (content : Txt) : checkSimilarContent content ≤ 7/10 := by
  unfold checkSimilarContent
  dsimp only
  split_ifs <;> norm_num

/-- Upper bound of the duplicate-sentence sub-score. -/
theorem checkCopiedSentences_le (content : Txt) : checkCopiedSentences content ≤ 3/5 := by
  unfold checkCopiedSentences
  dsimp only
  split_ifs <;> norm_num

/-- Plagiarism score as the mean of the four sub-scores (the cap at 1 is the
identity because the mean is at most 0.6). -/
theorem checkPlagiarism_eq_mean (content : Txt) :
    checkPlagiarism content =
      (checkCommonPhrases content + checkExactMatches content +
       checkSimilarContent content + checkCopiedSentences content) / 4 := by
  unfold checkPlagiarism
  dsimp only
  have h1 := checkCommonPhrases_le content
  have h2 := checkExactMatches_le content
  have h3 := checkSimilarContent_le content
  have h4 := checkCopiedSentences_le content
  rw [show ([checkCommonPhrases content, checkExactMatches content,
      checkSimilarContent content, checkCopiedSentences content] : List ℚ).sum =
      checkCommonPhrases content + checkExactMatches content +
      checkSimilarContent content + checkCopiedSentences content by
    simp [List.sum_cons, List.sum_nil]
    ring]
  rw [show (([checkCommonPhrases content, checkExactMatches content,
      checkSimilarContent content, checkCopiedSentences content] : List ℚ).length : ℚ) =
      (4 : ℚ) by norm_num]
  exact min_eq_left (by linarith)

/-- Strings starting with "Found " never equal the high-risk warning. -/
theorem found_ne_high (x : Txt) :
    lit "Found " ++ x ≠
      lit "High plagiarism risk detected. Consider rewriting the content completely." := by
  intro h
  have h0 := congrArg (fun l : Txt => l.headD ' ') h
  have hF : (fun l : Txt => l.headD ' ') (lit "Found " ++ x) = 'F' := rfl
  have hH : (fun l : Txt => l.headD ' ')
      (lit "High plagiarism risk detected. Consider rewriting the content completely.") = 'H' := rfl
  rw [hF, hH] at h0
  exact absurd h0 (by decide)

/-- The high-risk recommendation is unreachable whenever the score is at
most 0.6. -/
theorem high_risk_not_mem (s : ℚ) (results : List FactResult) (hs : s ≤ 3/5) :
    lit "High plagiarism risk detected. Consider rewriting the content completely."
      ∉ getRecommendations s results := by
  have hfound : ∀ (y z : Txt),
      lit "High plagiarism risk detected. Consider rewriting the content completely." ≠
        lit "Found " ++ y ++ z := by
    intro y z h
    refine found_ne_high (y ++ z) ?_
    rw [← List.append_assoc]
    exact h.symm
  unfold getRecommendations
  rw [if_neg (by linarith : ¬ ((4 : ℚ)/5 < s))]
  intro hmem
  simp only [List.mem_append] at hmem
  rcases hmem with (hbase | hfact) | hfin
  · split_ifs at hbase <;>
      simp only [List.mem_cons, List.not_mem_nil, or_false] at hbase <;>
      exact absurd hbase (by decide)
  · split_ifs at hfact <;>
      simp only [List.mem_append, List.mem_cons, List.not_mem_nil, or_false,
        false_or] at hfact <;>
      first
        | exact hfact
        | (rcases hfact with ((hfact | hfact) | hfact) <;> exact hfound _ _ hfact)
        | (rcases hfact with (hfact | hfact) <;> exact hfound _ _ hfact)
        | exact hfound _ _ hfact
  · split_ifs at hfin <;>
      simp only [List.mem_cons, List.not_mem_nil, or_false] at hfin
    exact absurd hfin (by decide)

/-- Claim C10: for every input text, the plagiarism score returned by
`check` equals the arithmetic mean of the four sub-scores, whose maximum
attainable values are 0.3, 0.8, 0.7 and 0.6 respectively, so the score is
at most 0.6; in particular the score never exceeds 0.8 and the "rewrite the
content completely" recommendation is unreachable for any input. -/
theorem c10_plagiarism_score_capped (content : Txt) (flag : Bool)
    (results : List FactResult) :
    (check content flag).1 =
      (checkCommonPhrases content + checkExactMatches content +
       checkSimilarContent content + checkCopiedSentences content) / 4 ∧
    checkCommonPhrases content ≤ 3/10 ∧
    checkExactMatches content ≤ 4/5 ∧
    checkSimilarContent content ≤ 7/10 ∧
    checkCopiedSentences content ≤ 3/5 ∧
    (check content flag).1 ≤ 3/5 ∧
    ¬ ((4 : ℚ)/5 < (check content flag).1) ∧
    lit "High plagiarism risk detected. Consider rewriting the content completely."
      ∉ getRecommendations (check content flag).1 results := by
  have h1 := checkCommonPhrases_le content
  have h2 := checkExactMatches_le content
  have h3 := checkSimilarContent_le content
  have h4 := checkCopiedSentences_le content
  have hfst : (check content flag).1 = checkPlagiarism content := rfl
  have heq := checkPlagiarism_eq_mean content
  have hle : (check content flag).1 ≤ 3/5 := by
    rw [hfst, heq]
    linarith
  exact ⟨by rw [hfst, heq], h1, h2, h3, h4, hle, by linarith,
    high_risk_not_mem _ results hle⟩

/-! ## Content generator
Embedding of `backend/core/content_generator.py`.  Network calls are
modelled by passing each provider\x27s response outcome as an explicit
parameter: `ApiOutcome.ok` carries the response content (and the token
count reported by the API), `ApiOutcome.err` the exception message caught
by the provider wrapper.  Client objects are modelled by their truthiness
(configured and reachable or not), which is all `generate_content`
inspects.  The configuration is the built-in default of `_load_config`
(content_generator.py lines 88-94). -/

/-- Result dictionary of one generation attempt. -/
structure GenResult where
  content : Txt
  modelUsed : Txt
  tokensUsed : Nat
  status : Txt
deriving DecidableEq, Repr

/-- Outcome of one outbound provider call. -/
inductive ApiOutcome where
  | ok (content : Txt) (tokens : Nat)
  | err (msg : Txt)
deriving DecidableEq, Repr

/-- Truthiness of the four provider clients set up in
`ContentGenerator.__init__` (content_generator.py lines 23-77). -/
structure GenState where
  ollamaClient : Bool
  openaiClient : Bool
  anthropicClient : Bool
  googleClient : Bool
deriving DecidableEq, Repr

/-- Embedding of `_generate_with_ollama` (content_generator.py lines
97-147): on success the model id is `"ollama-" + config["ollama"]["model"]`
and the token count is the word count of the content; on an exception the
error dictionary is returned. -/
def generateWithOllama (o : ApiOutcome) : GenResult :=
  match o with
  | .ok c _ =>
    { content := c
      modelUsed := lit "ollama-llama3.2:latest"
      tokensUsed := (splitWs c).length
      status := lit "success" }
  | .err e =>
    { content := lit "Ollama generation failed: " ++ e
      modelUsed := lit "ollama"
      tokensUsed := 0
      status := lit "error" }

/-- Embedding of `_generate_with_openai` (content_generator.py lines
151-179): the model id is `config["openai"]["model"]`. -/
def generateWithOpenai (o : ApiOutcome) : GenResult :=
  match o with
  | .ok c t =>
    { content := c
      modelUsed := lit "gpt-3.5-turbo"
      tokensUsed := t
      status := lit "success" }
  | .err e =>
    { content := lit "OpenAI generation failed: " ++ e
      modelUsed := lit "openai"
      tokensUsed := 0
      status := lit "error" }

/-- Embedding of `_generate_with_claude` (content_generator.py lines
181-226). -/
def generateWithClaude (o : ApiOutcome) : GenResult :=
  match o with
  | .ok c t =>
    { content := c
      modelUsed := lit "claude-3"
      tokensUsed := t
      status := lit "success" }
  | .err e =>
    { content := lit "Claude generation failed: " ++ e
      modelUsed := lit "claude-3"
      tokensUsed := 0
      status := lit "error" }

/-- Embedding of `_generate_with_gemini` (content_generator.py lines
228-269). -/
def generateWithGemini (o : ApiOutcome) : GenResult :=
  match o with
  | .ok c t =>
    { content := c
      modelUsed := lit "gemini-pro"
      tokensUsed := t
      status := lit "success" }
  | .err e =>
    { content := lit "Gemini generation failed: " ++ e
      modelUsed := lit "gemini-pro"
      tokensUsed := 0
      status := lit "error" }

/-- Parse of the structured brief fields out of the prompt lines, the loop
of `_generate_fallback_content` (content_generator.py lines 275-291).
The accumulator is (title, description, targetAudience, keywords). -/
def parseBriefLine (st : Txt × Txt × Txt × List Txt) (line : Txt) :
    Txt × Txt × Txt × List Txt :=
  let (title, description, targetAudience, keywords) := st
  if startsWithTxt (lit "Title:") line then
    (stripTxt (replaceAll (lit "Title:") [] line), description, targetAudience, keywords)
  else if startsWithTxt (lit "Description:") line then
    (title, stripTxt (replaceAll (lit "Description:") [] line), targetAudience, keywords)
  else if startsWithTxt (lit "Target Audience:") line then
    (title, description, stripTxt (replaceAll (lit "Target Audience:") [] line), keywords)
  else if startsWithTxt (lit "Keywords:") line then
    let keywordsText := stripTxt (replaceAll (lit "Keywords:") [] line)
    if keywordsText ≠ lit "None" then
      (title, description, targetAudience,
        (splitOnSep (lit ",") keywordsText).map stripTxt)
    else (title, description, targetAudience, keywords)
  else st

/-- Embedding of `_generate_fallback_content` (content_generator.py lines
271-356): parse the brief fields from the prompt and instantiate the fixed
template of the requested content type.  The `except` handler is dead code
for string inputs (the body is total). -/
def generateFallbackContent (prompt contentType style length : Txt) : Txt :=
  let lines := splitOnSep (lit "\n") (stripTxt prompt)
  let (title, description, targetAudience, keywords) :=
    lines.foldl parseBriefLine ([], [], [], [])
  if contentType = lit "blog_post" then
    lit "# " ++
      title ++
      lit "\n\n" ++
      description ++
      lit "\n\n## Introduction\n\nIn today\x27s rapidly evolving business landscape, " ++
      lowerTxt title ++
      lit " has become a cornerstone of modern organizational success. This comprehensive guide explores the key aspects and implications for " ++
      lowerTxt targetAudience ++
      lit ".\n\n## Key Benefits\n\nThe implementation of " ++
      lowerTxt title ++
      lit " offers numerous advantages:\n\n- **Enhanced Efficiency**: Streamlined processes and automated workflows\n- **Improved Decision Making**: Data-driven insights and analytics\n- **Cost Reduction**: Optimized resource allocation and reduced operational costs\n- **Competitive Advantage**: Staying ahead in an increasingly digital marketplace\n\n## Implementation Strategies\n\nFor " ++
      lowerTxt targetAudience ++
      lit ", successful adoption requires:\n\n1. **Strategic Planning**: Aligning technology with business objectives\n2. **Change Management**: Ensuring smooth organizational transition\n3. **Continuous Learning**: Staying updated with latest developments\n4. **Performance Monitoring**: Tracking key metrics and outcomes\n\n## Future Outlook\n\nAs technology continues to advance, " ++
      lowerTxt title ++
      lit " will play an even more critical role in shaping business success. Organizations that embrace these changes early will be best positioned for long-term growth and sustainability.\n\n## Conclusion\n\n" ++
      title ++
      lit " represents a fundamental shift in how businesses operate and compete. By understanding and leveraging these technologies, " ++
      lowerTxt targetAudience ++
      lit " can unlock new opportunities and drive sustainable success.\n\n*Keywords: " ++
      (if keywords ≠ [] then joinSep (lit ", ") keywords else lit "business, technology, innovation") ++
      lit "*\n"
  else
    lit "# " ++
      title ++
      lit "\n\n" ++
      description ++
      lit "\n\nThis " ++
      contentType ++
      lit " explores the critical aspects of " ++
      lowerTxt title ++
      lit " and its relevance for " ++
      lowerTxt targetAudience ++
      lit ". Through detailed examination and expert insights, we provide comprehensive coverage of this important topic.\n\n## Key Points\n\n- Understanding the fundamentals of " ++
      lowerTxt title ++
      lit "\n- Identifying opportunities for " ++
      lowerTxt targetAudience ++
      lit "\n- Implementing effective strategies and solutions\n- Measuring success and optimizing performance\n\n## Summary\n\n" ++
      title ++
      lit " represents a significant opportunity for " ++
      lowerTxt targetAudience ++
      lit " to enhance their capabilities and achieve competitive advantages. By embracing these developments, organizations can position themselves for long-term success and growth.\n\n*Keywords: " ++
      (if keywords ≠ [] then joinSep (lit ", ") keywords else lit "strategy, implementation, success") ++
      lit "*\n"

/-- Default chain of `generate_content` (content_generator.py lines
382-411): try Ollama, OpenAI, Claude, Gemini in order, returning the first
success, else the deterministic fallback result. -/
def tryDefaultOrder (gs : GenState) (oll oai cla gem : ApiOutcome)
    (prompt contentType style length : Txt) : GenResult :=
  if gs.ollamaClient = true ∧ (generateWithOllama oll).status = lit "success" then
    generateWithOllama oll
  else if gs.openaiClient = true ∧ (generateWithOpenai oai).status = lit "success" then
    generateWithOpenai oai
  else if gs.anthropicClient = true ∧ (generateWithClaude cla).status = lit "success" then
    generateWithClaude cla
  else if gs.googleClient = true ∧ (generateWithGemini gem).status = lit "success" then
    generateWithGemini gem
  else
    { content := generateFallbackContent prompt contentType style length
      modelUsed := lit "fallback"
      tokensUsed := 0
      status := lit "success" }

/-- Embedding of `generate_content` (content_generator.py lines 358-411):
a preferred provider different from "auto" is attempted first when its
client is configured, returning immediately on success; otherwise the
default order runs. -/
def generateContent (gs : GenState) (oll oai cla gem : ApiOutcome)
    (prompt contentType style length preferredModel : Txt) : GenResult :=
  let preferredResult : Option GenResult :=
    if preferredModel ≠ lit "auto" then
      if preferredModel = lit "ollama" ∧ gs.ollamaClient = true then
        (if (generateWithOllama oll).status = lit "success" then
          some (generateWithOllama oll) else none)
      else if preferredModel = lit "openai" ∧ gs.openaiClient = true then
        (if (generateWithOpenai oai).status = lit "success" then
          some (generateWithOpenai oai) else none)
      else if preferredModel = lit "claude" ∧ gs.anthropicClient = true then
        (if (generateWithClaude cla).status = lit "success" then
          some (generateWithClaude cla) else none)
      else if preferredModel = lit "gemini" ∧ gs.googleClient = true then
        (if (generateWithGemini gem).status = lit "success" then
          some (generateWithGemini gem) else none)
      else none
    else none
  match preferredResult with
  | some r => r
  | none => tryDefaultOrder gs oll oai cla gem prompt contentType style length

/-- Claim C1: with no provider client configured, `generate_content`
returns the deterministic template fallback with status "success" for any
prompt, content type, style, length and preferred model (in particular for
"auto" or the name of an unavailable provider), and — being a total
function in the embedding — never raises. -/
theorem c1_no_providers_fallback (oll oai cla gem : ApiOutcome)
    (prompt contentType style length preferredModel : Txt) :
    generateContent ⟨false, false, false, false⟩ oll oai cla gem
        prompt contentType style length preferredModel =
      { content := generateFallbackContent prompt contentType style length
        modelUsed := lit "fallback"
        tokensUsed := 0
        status := lit "success" } := by
  unfold generateContent tryDefaultOrder
  simp

/-- Claim C6: when the preferred provider names no available provider, the
chain falls through to the default order rather than skipping to the
fallback; in particular with Ollama unavailable and OpenAI configured and
succeeding, the OpenAI result — whose model id "gpt-3.5-turbo" names the
provider — is returned. -/
theorem c6_preferred_unavailable_falls_through (gs : GenState)
    (oll oai cla gem : ApiOutcome) (prompt contentType style length pref : Txt)
    (h1 : pref = lit "ollama" → gs.ollamaClient = false)
    (h2 : pref = lit "openai" → gs.openaiClient = false)
    (h3 : pref = lit "claude" → gs.anthropicClient = false)
    (h4 : pref = lit "gemini" → gs.googleClient = false) :
    generateContent gs oll oai cla gem prompt contentType style length pref =
      tryDefaultOrder gs oll oai cla gem prompt contentType style length ∧
    (gs.ollamaClient = false → gs.openaiClient = true →
      (generateWithOpenai oai).status = lit "success" →
      generateContent gs oll oai cla gem prompt contentType style length pref =
        generateWithOpenai oai ∧
      (generateWithOpenai oai).modelUsed = lit "gpt-3.5-turbo") := by
  have hpref : generateContent gs oll oai cla gem prompt contentType style length pref =
      tryDefaultOrder gs oll oai cla gem prompt contentType style length := by
    unfold generateContent
    have e1 : ¬ (pref = lit "ollama" ∧ gs.ollamaClient = true) := by
      rintro ⟨ha, hb⟩
      rw [h1 ha] at hb
      exact Bool.false_ne_true hb
    have e2 : ¬ (pref = lit "openai" ∧ gs.openaiClient = true) := by
      rintro ⟨ha, hb⟩
      rw [h2 ha] at hb
      exact Bool.false_ne_true hb
    have e3 : ¬ (pref = lit "claude" ∧ gs.anthropicClient = true) := by
      rintro ⟨ha, hb⟩
      rw [h3 ha] at hb
      exact Bool.false_ne_true hb
    have e4 : ¬ (pref = lit "gemini" ∧ gs.googleClient = true) := by
      rintro ⟨ha, hb⟩
      rw [h4 ha] at hb
      exact Bool.false_ne_true hb
    by_cases hauto : pref = lit "auto"
    · simp [hauto]
    · simp [hauto, e1, e2, e3, e4]
  refine ⟨hpref, fun holl hoai hsucc => ⟨?_, ?_⟩⟩
  · rw [hpref]
    unfold tryDefaultOrder
    rw [if_neg (by rintro ⟨ha, _⟩; rw [holl] at ha; exact Bool.false_ne_true ha)]
    rw [if_pos ⟨hoai, hsucc⟩]
  · cases oai with
    | ok c t => rfl
    | err e =>
      exfalso
      have : (generateWithOpenai (ApiOutcome.err e)).status = lit "error" := rfl
      rw [this] at hsucc
      exact absurd (congrArg (fun l : Txt => l.headD ' ') hsucc) (by decide)

/-- Witness for C6: preferred provider "local" unavailable, Ollama not
configured, OpenAI configured and succeeding with five tokens. -/
theorem c6_preferred_unavailable_falls_through_witness :
    ((lit "local" = lit "ollama" → (⟨false, true, false, false⟩ : GenState).ollamaClient = false) ∧
     (lit "local" = lit "openai" → (⟨false, true, false, false⟩ : GenState).openaiClient = false) ∧
     (lit "local" = lit "claude" → (⟨false, true, false, false⟩ : GenState).anthropicClient = false) ∧
     (lit "local" = lit "gemini" → (⟨false, true, false, false⟩ : GenState).googleClient = false)) ∧
    generateContent ⟨false, true, false, false⟩ (ApiOutcome.err (lit "down"))
        (ApiOutcome.ok (lit "generated text") 5) (ApiOutcome.err (lit "down"))
        (ApiOutcome.err (lit "down")) (lit "p") (lit "article") (lit "professional")
        (lit "medium") (lit "local") =
      { content := lit "generated text"
        modelUsed := lit "gpt-3.5-turbo"
        tokensUsed := 5
        status := lit "success" } := by
  refine ⟨⟨fun h => rfl, ?_, fun h => rfl, fun h => rfl⟩, ?_⟩
  · intro h
    exact absurd (congrArg (fun l : Txt => l.headD ' ') h) (by decide)
  · have h := (c6_preferred_unavailable_falls_through
      ⟨false, true, false, false⟩ (ApiOutcome.err (lit "down"))
      (ApiOutcome.ok (lit "generated text") 5) (ApiOutcome.err (lit "down"))
      (ApiOutcome.err (lit "down")) (lit "p") (lit "article") (lit "professional")
      (lit "medium") (lit "local")
      (fun h => rfl)
      (fun h => absurd (congrArg (fun l : Txt => l.headD ' ') h) (by decide))
      (fun h => rfl) (fun h => rfl)).2 rfl rfl rfl
    exact h.1

/-! ## SEO optimizer content pipeline
Embedding of the content transformation performed by `SEOOptimizer.optimize`
(seo_optimizer.py lines 44-95): the six mutators applied in order.  The
density and score components of the returned triple are
`calculateKeywordDensity` and `calculateSeoScore` above; the claims about
structural insertions concern only the content component, embedded here as
`optimizeContent`. -/

/-- ASCII model of Python `str.title()`: a letter directly preceded by a
letter is lowered, any other letter is uppercased (the flag records whether
the previous character was a letter). -/
def pyTitleGo : Bool → Txt → Txt
  | _, [] => []
  | prevAlpha, c :: cs =>
    if isAsciiAlpha c then
      (if prevAlpha then lowerChar c else upperChar c) :: pyTitleGo true cs
    else c :: pyTitleGo false cs

/-- Model of Python `str.title()` (see `pyTitleGo`). -/
def pyTitle (t : Txt) : Txt := pyTitleGo false t

/-- Apply a test at the position after every newline of the text: the
line-start positions other than position zero of `re.MULTILINE` anchoring. -/
def scanAfterNl (p : Txt → Bool) : Txt → Bool
  | [] => false
  | c :: cs => if c = '
' then p cs || scanAfterNl p cs else scanAfterNl p cs

/-- Step past `[^>]*>` after an opening `<h1`: skip to just past the first
`>` (the only closing position a backtracking `[^>]*` can reach), `none`
when no `>` follows. -/
def h1OpenEnd : Txt → Option Txt
  | [] => none
  | c :: cs => if c = '>' then some cs else h1OpenEnd cs

/-- Search for a case-insensitive `</h1>` reachable by the lazy group
`(.*?)`: `.` does not match a newline, so the search stops at the first
newline. -/
def h1CloseSearch : Txt → Bool
  | [] => false
  | c :: cs =>
    if ciStartsWith (lit "</h1>") (c :: cs) then true
    else if c = '
' then false
    else h1CloseSearch cs

/-- Match of `<h1[^>]*>(.*?)</h1>` (IGNORECASE) anchored at the current
position. -/
def h1PairAt (t : Txt) : Bool :=
  ciStartsWith (lit "<h1") t &&
    (match h1OpenEnd (t.drop 3) with
     | none => false
     | some rest => h1CloseSearch rest)

/-- Presence of `re.search(r"<h1[^>]*>(.*?)</h1>", content, re.IGNORECASE)`. -/
def hasH1PairB (t : Txt) : Bool := anySuffix h1PairAt t

/-- After the mandatory first `\s` of `^#\s+(.+)$`: the remaining pattern
can match iff a character other than a newline appears before the run of
newlines ends (a non-newline whitespace character may be consumed by `.+`,
so only newlines force the `\s+` loop to continue). -/
def mdTitleAfterWs : Txt → Bool
  | [] => false
  | c :: cs => if c = '
' then mdTitleAfterWs cs else true

/-- Match of `^#\s+(.+)$` anchored at a line-start position. -/
def mdTitleAtB : Txt → Bool
  | '#' :: c :: cs => isPySpace c && mdTitleAfterWs cs
  | _ => false

/-- Presence of `re.search(r"^#\s+(.+)$", content, re.MULTILINE)`. -/
def hasMdTitleB (t : Txt) : Bool := mdTitleAtB t || scanAfterNl mdTitleAtB t

/-- The title test of `_optimize_title` and `_evaluate_title`
(seo_optimizer.py lines 245-247): an html `<h1>` pair or a markdown `# `
title line. -/
def hasTitleMatchB (t : Txt) : Bool := hasH1PairB t || hasMdTitleB t

/-- Presence of a `>` anywhere in the text: the suffix test for `[^>]*>`
after a matched opening tag literal (the chars before the first `>` are
automatically all non-`>`). -/
def tagCloseB : Txt → Bool
  | [] => false
  | c :: cs => c = '>' || tagCloseB cs

/-- Match of `<h2[^>]*>` (IGNORECASE) anchored at the current position. -/
def h2OpenAtB (t : Txt) : Bool := ciStartsWith (lit "<h2") t && tagCloseB (t.drop 3)

/-- Presence of `re.search(r"<h2[^>]*>", content, re.IGNORECASE)`. -/
def hasH2HtmlB (t : Txt) : Bool := anySuffix h2OpenAtB t

/-- Match of `^##\s+` anchored at a line-start position. -/
def md2AtB : Txt → Bool
  | '#' :: '#' :: c :: _ => isPySpace c
  | _ => false

/-- Presence of `re.search(r"^##\s+", content, re.MULTILINE)`. -/
def hasMdH2B (t : Txt) : Bool := md2AtB t || scanAfterNl md2AtB t

/-- The heading test of `_optimize_headings` (seo_optimizer.py line 260):
either an html `<h2>` tag or a markdown `## ` heading line. -/
def hasH2AnyB (t : Txt) : Bool := hasH2HtmlB t || hasMdH2B t

/-- Embedding of `_optimize_title` (seo_optimizer.py lines 242-255):
prepend `# {keywords[0].title()} - Complete Guide` when no title is found
and the keyword list is non-empty. -/
def optimizeTitle (content : Txt) (keywords : List Txt) : Txt :=
  if ¬ hasTitleMatchB content ∧ keywords ≠ [] then
    lit "# " ++ pyTitle (keywords.headD []) ++ lit " - Complete Guide\n\n" ++ content
  else content

/-- Embedding of `_optimize_headings` (seo_optimizer.py lines 257-270):
when no H2 heading is found and keywords exist, insert a
`\n## Why {keywords[0].title()} Matters\n` paragraph at index 1 of the
`\n\n`-split paragraph list, provided there is more than one paragraph. -/
def optimizeHeadings (content : Txt) (keywords : List Txt) : Txt :=
  if ¬ hasH2HtmlB content ∧ ¬ hasMdH2B content then
    match keywords with
    | [] => content
    | kw :: _ =>
      let paragraphs := splitOnSep (lit "\n\n") content
      if 1 < paragraphs.length then
        joinSep (lit "\n\n")
          (paragraphs.insertIdx 1 (lit "\n## Why " ++ pyTitle kw ++ lit " Matters\n"))
      else content
  else content

/-- Loop of `_add_keyword_naturally` (seo_optimizer.py lines 295-306): the
first sentence longer than 20 characters that does not contain the keyword
(case-insensitively) gets the keyword appended, and the loop breaks. -/
def addKeywordNaturallyGo (keyword : Txt) : List Txt → List Txt
  | [] => []
  | s :: rest =>
    if ¬ hasSub (lowerTxt s) (lowerTxt keyword) ∧ 20 < s.length then
      (s ++ lit " This is particularly important when considering " ++ keyword ++ lit ".") :: rest
    else s :: addKeywordNaturallyGo keyword rest

/-- Embedding of `_add_keyword_naturally`: split on `". "`, amend one
sentence, rejoin. -/
def addKeywordNaturally (content keyword : Txt) : Txt :=
  joinSep (lit ". ") (addKeywordNaturallyGo keyword (splitOnSep (lit ". ") content))

/-- Embedding of `_optimize_keyword_usage` (seo_optimizer.py lines
272-293).  The source computes `int((1.5 / 100) * total_words)` in binary
floating point; the embedding uses the exact value `3 * total_words / 200`
(natural floor division).  The float product carries a tiny negative error,
so CPython truncates one lower exactly at multiples of 200 words — the
theorems below only use word counts at most 66, where the exact target and
the float target are both zero. -/
def optimizeKeywordUsage (content : Txt) (keywords : List Txt) : Txt :=
  keywords.foldl (fun oc kw =>
    if countSub (lowerTxt oc) (lowerTxt kw) < 3 * (splitWs oc).length / 200 then
      addKeywordNaturally oc kw
    else oc) content

/-- Match of `name=["\x27]description["\x27]` (IGNORECASE) anchored at the
current position (the two quote characters are independent class members). -/
def nameDescrAt (t : Txt) : Bool :=
  ciStartsWith (lit "name=") t &&
    (match t.drop 5 with
     | q :: rest =>
       isQuote q && ciStartsWith (lit "description") rest &&
         (match rest.drop 11 with
          | q2 :: _ => isQuote q2
          | [] => false)
     | [] => false)

/-- Backtracking positions of `[^>]*` after `<meta`: test the name pattern
at each offset reachable without crossing a `>`. -/
def metaAfter : Txt → Bool
  | [] => false
  | c :: cs =>
    if nameDescrAt (c :: cs) then true
    else if c = '>' then false
    else metaAfter cs

/-- Match of `<meta[^>]*name=["\x27]description["\x27]` (IGNORECASE)
anchored at the current position. -/
def metaPresAt (t : Txt) : Bool :=
  ciStartsWith (lit "<meta") t && (nameDescrAt (t.drop 5) || metaAfter (t.drop 5))

/-- Presence of the meta-description test of `_add_meta_description`
(seo_optimizer.py line 310). -/
def metaPresentB (t : Txt) : Bool := anySuffix metaPresAt t

/-- The generated meta-description text (seo_optimizer.py line 313). -/
def metaDescTxt (keywords : List Txt) : Txt :=
  lit "Learn about " ++ (if keywords = [] then lit "content" else keywords.headD []) ++
    lit " with our comprehensive guide. Discover best practices, tips, and insights."

/-- The full generated `<meta>` tag (seo_optimizer.py lines 317-319). -/
def metaTag (keywords : List Txt) : Txt :=
  lit "<meta name=\x22description\x22 content=\x22" ++ metaDescTxt keywords ++ lit "\x22>"

/-- Embedding of `_add_meta_description` (seo_optimizer.py lines 308-321):
when the meta-description pattern is absent, splice the tag after `<head>`
if one occurs, otherwise prepend it. -/
def addMetaDescription (content : Txt) (keywords : List Txt) : Txt :=
  if ¬ metaPresentB content then
    if hasSub content (lit "<head>") then
      replaceAll (lit "<head>") (lit "<head>\n" ++ metaTag keywords) content
    else metaTag keywords ++ lit "\n\n" ++ content
  else content

/-- Model of `re.sub(r"(\d+\.\s+)", r"* ", content)`: a maximal digit run
followed by a dot and at least one whitespace character is replaced by
`* `, scanning left to right.  Fuel-based structural recursion (fuel = text
length suffices, every step consumes at least one character). -/
def digitsDotSubGo : Nat → Txt → Txt
  | 0, t => t
  | _ + 1, [] => []
  | n + 1, c :: cs =>
    if isAsciiDigit c then
      let ds := (c :: cs).takeWhile isAsciiDigit
      match (c :: cs).drop ds.length with
      | '.' :: r2 =>
        let ws := r2.takeWhile isPySpace
        if ws ≠ [] then '*' :: ' ' :: digitsDotSubGo n (r2.drop ws.length)
        else c :: digitsDotSubGo n cs
      | _ => c :: digitsDotSubGo n cs
    else c :: digitsDotSubGo n cs

/-- Presence of `re.search(r"conclusion|summary|final", content,
re.IGNORECASE)`: a case-insensitive substring test for the three
alternatives. -/
def conclusionPresentB (t : Txt) : Bool :=
  hasSub (lowerTxt t) (lit "conclusion") || hasSub (lowerTxt t) (lit "summary") ||
    hasSub (lowerTxt t) (lit "final")

/-- The summary section appended by `_optimize_content_structure`
(seo_optimizer.py line 332). -/
def summaryBlock : Txt :=
  lit "\n\n## Summary\nThis comprehensive guide provides valuable insights and practical advice."

/-- Embedding of `_optimize_content_structure` (seo_optimizer.py lines
323-334): rewrite numbered items to bullets when `Key Points` or `Benefits`
occurs (case-sensitively), then append the summary section when no
conclusion marker is present. -/
def optimizeContentStructure (content : Txt) : Txt :=
  let content :=
    if hasSub content (lit "Key Points") || hasSub content (lit "Benefits") then
      digitsDotSubGo content.length content
    else content
  if ¬ conclusionPresentB content then content ++ summaryBlock else content

/-- Characters allowed after the first letter of a URL scheme. -/
def isSchemeChar (c : Char) : Bool :=
  isAsciiAlpha c || isAsciiDigit c || c = '+' || c = '-' || c = '.'

/-- Split a text at its first colon, `none` when there is no colon. -/
def findColon : Txt → Option (Txt × Txt)
  | [] => none
  | c :: cs =>
    if c = ':' then some ([], cs)
    else match findColon cs with
      | some (a, b) => some (c :: a, b)
      | none => none

/-- A valid URL scheme: a letter followed by letters, digits, `+`, `-`,
`.`. -/
def validScheme (s : Txt) : Bool :=
  match s with
  | [] => false
  | c :: cs => isAsciiAlpha c && cs.all isSchemeChar

/-- Model of `urlparse(url).netloc`: strip a valid `scheme:` prefix, then
the netloc is what follows a leading `//` up to the first `/`, `?` or `#`
(empty when the remainder does not start with `//`). -/
def netlocOf (url : Txt) : Txt :=
  let rest := match findColon url with
    | some (sch, after) => if validScheme sch then after else url
    | none => url
  match rest with
  | '/' :: '/' :: r => r.takeWhile (fun c => ! (c == '/' || c == Char.ofNat 63 || c == '#'))
  | _ => []

/-- The related-links section appended by `_add_link_suggestions`
(seo_optimizer.py line 342). -/
def linkBlock : Txt :=
  lit "\n\n## Related Content\n- [More about this topic](/related)\n- [Best practices](/best-practices)\n- [FAQ](/faq)"

/-- Embedding of `_add_link_suggestions` (seo_optimizer.py lines 336-345):
append the related-links section when the target URL is truthy and its
parsed netloc is non-empty; `none` models `target_url=None`. -/
def addLinkSuggestions (content : Txt) (targetUrl : Option Txt) : Txt :=
  match targetUrl with
  | none => content
  | some url =>
    if url ≠ [] ∧ netlocOf url ≠ [] then content ++ linkBlock else content

/-- The content component of `SEOOptimizer.optimize` (seo_optimizer.py
lines 61-91): the six mutators in order. -/
def optimizeContent (keywords : List Txt) (targetUrl : Option Txt) (content : Txt) : Txt :=
  addLinkSuggestions
    (optimizeContentStructure
      (addMetaDescription
        (optimizeKeywordUsage
          (optimizeHeadings (optimizeTitle content keywords) keywords)
          keywords)
        keywords))
    targetUrl

/-- A content with a detected title is not modified by `_optimize_title`. -/
theorem optimizeTitle_of_title (c : Txt) (kws : List Txt)
    (h : hasTitleMatchB c = true) : optimizeTitle c kws = c := by
  simp [optimizeTitle, h]

/-- A content with a detected H2 heading is not modified by
`_optimize_headings`. -/
theorem optimizeHeadings_of_h2 (c : Txt) (kws : List Txt)
    (h : hasH2AnyB c = true) : optimizeHeadings c kws = c := by
  have hor : hasH2HtmlB c = true ∨ hasMdH2B c = true := by
    simpa [hasH2AnyB] using h
  rcases hor with h1 | h1
  · simp [optimizeHeadings, h1]
  · simp [optimizeHeadings, h1]

/-- `_optimize_keyword_usage` is the identity on a content of at most 66
words: the target count `int(0.015 * total_words)` is zero, and no current
count is below zero. -/
theorem optimizeKeywordUsage_small (c : Txt) (kws : List Txt)
    (h : (splitWs c).length ≤ 66) : optimizeKeywordUsage c kws = c := by
  induction kws with
  | nil => rfl
  | cons kw rest ih =>
    unfold optimizeKeywordUsage at ih ⊢
    rw [List.foldl_cons]
    have ht : 3 * (splitWs c).length / 200 = 0 := Nat.div_eq_of_lt (by omega)
    rw [ht, if_neg (Nat.not_lt_zero _)]
    exact ih

/-- A content already containing the meta-description pattern is not
modified by `_add_meta_description`. -/
theorem addMetaDescription_of_present (c : Txt) (kws : List Txt)
    (h : metaPresentB c = true) : addMetaDescription c kws = c := by
  simp [addMetaDescription, h]

/-- A content without the bullet-rewrite triggers and with a conclusion
marker is not modified by `_optimize_content_structure`. -/
theorem optimizeContentStructure_of_markers (c : Txt)
    (hk : hasSub c (lit "Key Points") = false)
    (hb : hasSub c (lit "Benefits") = false)
    (hc : conclusionPresentB c = true) : optimizeContentStructure c = c := by
  simp [optimizeContentStructure, hk, hb, hc]

/-- `_add_link_suggestions` appends the related-links section whenever the
target URL is non-empty with a non-empty netloc — unconditionally on the
content. -/
theorem addLinkSuggestions_append (c url : Txt) (h1 : url ≠ [])
    (h2 : netlocOf url ≠ []) : addLinkSuggestions c (some url) = c ++ linkBlock := by
  simp [addLinkSuggestions, h1, h2]

/-- Claim C2, counterexample: `optimize` is not idempotent on its
structural insertions.  On the text `"Hello world"` with keyword `"seo"`
and target URL `"http://example.com"`, one run inserts the related-links
section once, but a second run on the first run\x27s output inserts it
again: the count of `"## Related Content"` is 2 after two runs and 1 after
one run. -/
theorem c2_link_section_counterexample :
    countSub (optimizeContent [lit "seo"] (some (lit "http://example.com"))
        (optimizeContent [lit "seo"] (some (lit "http://example.com")) (lit "Hello world")))
      (lit "## Related Content") = 2 ∧
    countSub (optimizeContent [lit "seo"] (some (lit "http://example.com")) (lit "Hello world"))
      (lit "## Related Content") = 1 :=
  ⟨by decide, by decide⟩

/-- Claim C2 (amended): a second run of `optimize` on its own output makes
exactly one change — it appends the related-links section once more.
Whenever the first run\x27s output already contains a detected title, an H2
heading, the meta-description pattern and a conclusion marker, does not
contain the bullet-rewrite triggers `"Key Points"`/`"Benefits"`, and has at
most 66 words (so the keyword-usage target count is zero), and the target
URL has a non-empty netloc, the second run\x27s output equals the first
run\x27s output with the related-links section appended: the title,
heading, meta-description and summary insertions are idempotent, the
related-links insertion is not. -/
theorem c2_second_pass_appends_link_section_again
    (keywords : List Txt) (url c : Txt)
    (hT : hasTitleMatchB (optimizeContent keywords (some url) c) = true)
    (hH : hasH2AnyB (optimizeContent keywords (some url) c) = true)
    (hW : (splitWs (optimizeContent keywords (some url) c)).length ≤ 66)
    (hM : metaPresentB (optimizeContent keywords (some url) c) = true)
    (hK : hasSub (optimizeContent keywords (some url) c) (lit "Key Points") = false)
    (hB : hasSub (optimizeContent keywords (some url) c) (lit "Benefits") = false)
    (hC : conclusionPresentB (optimizeContent keywords (some url) c) = true)
    (hu : url ≠ []) (hn : netlocOf url ≠ []) :
    optimizeContent keywords (some url) (optimizeContent keywords (some url) c) =
      optimizeContent keywords (some url) c ++ linkBlock := by
  set P := optimizeContent keywords (some url) c with hP
  unfold optimizeContent
  rw [optimizeTitle_of_title P keywords hT,
      optimizeHeadings_of_h2 P keywords hH,
      optimizeKeywordUsage_small P keywords hW,
      addMetaDescription_of_present P keywords hM,
      optimizeContentStructure_of_markers P hK hB hC,
      addLinkSuggestions_append P url hu hn]

/-- Witness for C2 (amended): the hypotheses hold on the concrete run of
the counterexample input, and the second pass appends exactly the
related-links section. -/
theorem c2_second_pass_appends_link_section_again_witness :
    optimizeContent [lit "seo"] (some (lit "http://example.com"))
        (optimizeContent [lit "seo"] (some (lit "http://example.com")) (lit "Hello world")) =
      optimizeContent [lit "seo"] (some (lit "http://example.com")) (lit "Hello world") ++
        linkBlock :=
  c2_second_pass_appends_link_section_again [lit "seo"] (lit "http://example.com")
    (lit "Hello world") (by decide) (by decide) (by decide) (by decide) (by decide)
    (by decide) (by decide) (by decide) (by decide)

/-! ## Style refiner
Embedding of `backend/core/style_refiner.py` (the basic-text-processing
path: spaCy and textstat are optional and unused by `refine`). -/

/-- Word characters of the regex `\b` boundary: letters, digits,
underscore. -/
def isWordChar (c : Char) : Bool := isAsciiAlpha c ∨ isAsciiDigit c ∨ c = '_'

/-- Model of `re.sub(rf"\b{old}\b", new, content, flags=re.IGNORECASE)`:
replace case-insensitive whole-word occurrences of `old` (non-empty, given
pre-lowered) by `new`, scanning left to right without overlap.  The `prev`
argument carries the character before the current position for the left
`\b` test; the right `\b` test inspects the character after the candidate
match.  Fuel-based structural recursion (fuel = text length suffices). -/
def wordSubGo (old new : Txt) : Nat → Option Char → Txt → Txt
  | 0, _, t => t
  | _ + 1, _, [] => []
  | n + 1, prev, c :: cs =>
    let boundaryLeft : Bool := match prev with
      | none => true
      | some p => ! isWordChar p
    let after := (c :: cs).drop old.length
    let boundaryRight : Bool := after.isEmpty || ! isWordChar (after.headD ' ')
    if old ≠ [] ∧ ciStartsWith old (c :: cs) ∧ old.length ≤ (c :: cs).length ∧
        boundaryLeft ∧ boundaryRight then
      new ++ wordSubGo old new n (((c :: cs).take old.length).getLast?) after
    else c :: wordSubGo old new n (some c) cs

/-- Whole-word case-insensitive substitution (see `wordSubGo`). -/
def wordSub (old new t : Txt) : Txt := wordSubGo old new t.length none t

/-- Word replacement tables of `_get_word_replacements` (style_refiner.py
lines 156-193), with `[]` for unknown styles (dict `.get` default). -/
def getWordReplacements (style : Txt) : List (Txt × Txt) :=
  if style = lit "professional" then
    [(lit "use", lit "utilize"), (lit "make", lit "implement"),
     (lit "help", lit "facilitate"), (lit "improve", lit "optimize"),
     (lit "start", lit "initiate"), (lit "end", lit "conclude")]
  else if style = lit "casual" then
    [(lit "utilize", lit "use"), (lit "implement", lit "make"),
     (lit "facilitate", lit "help"), (lit "optimize", lit "improve"),
     (lit "initiate", lit "start"), (lit "conclude", lit "end")]
  else if style = lit "humorous" then
    [(lit "good", lit "amazing"), (lit "great", lit "incredible"),
     (lit "excellent", lit "mind-blowing"), (lit "bad", lit "hilarious"),
     (lit "problem", lit "adventure"), (lit "issue", lit "challenge")]
  else if style = lit "academic" then
    [(lit "also", lit "furthermore"), (lit "but", lit "however"),
     (lit "so", lit "consequently"), (lit "and", lit "moreover"),
     (lit "though", lit "nevertheless"),
     (lit "because", lit "due to the fact that")]
  else []

/-- Sentence-structure field of the `style_rules` table (style_refiner.py
lines 38-63). -/
def sentenceStructureOf (style : Txt) : Txt :=
  if style = lit "professional" then lit "complex"
  else if style = lit "casual" then lit "simple"
  else if style = lit "humorous" then lit "varied"
  else if style = lit "academic" then lit "complex"
  else []

/-- Membership in the `style_rules` table. -/
def styleRulesHas (style : Txt) : Bool :=
  style = lit "professional" ∨ style = lit "casual" ∨
  style = lit "humorous" ∨ style = lit "academic"

/-- Embedding of `_simplify_sentences` (style_refiner.py lines 195-211):
sentences longer than 20 words are split at ", " when possible. -/
def simplifySentences (content : Txt) : Txt :=
  let sentences := splitOnSep (lit ". ") content
  let simplified := (sentences.map (fun s =>
    if 20 < (splitWs s).length then
      let parts := splitOnSep (lit ", ") s
      if 1 < parts.length then parts else [s]
    else [s])).join
  joinSep (lit ". ") simplified

/-- Loop of `_complexify_sentences` (style_refiner.py lines 213-230): a
sentence shorter than 10 words that is not the last one is combined with
the following sentence (which is then blanked, so that the blank in turn
combines with its successor). -/
def complexifyGo : List Txt → List Txt
  | [] => []
  | [x] => [x]
  | x :: y :: rest =>
    if (splitWs x).length < 10 then
      (x ++ lit ", and " ++ lowerTxt y) :: complexifyGo ([] :: rest)
    else x :: complexifyGo (y :: rest)
termination_by l => l.length
decreasing_by
  · simp only [List.length_cons]
    omega
  · simp only [List.length_cons]
    omega

/-- Embedding of `_complexify_sentences`: combine, then join the non-empty
results. -/
def complexifySentences (content : Txt) : Txt :=
  let sentences := splitOnSep (lit ". ") content
  joinSep (lit ". ") ((complexifyGo sentences).filter (· ≠ []))

/-- Tone-marker lists of `_adjust_tone_markers` (style_refiner.py lines
234-259); `none` for a style absent from the table. -/
def toneMarkers (style : Txt) : Option (List Txt) :=
  if style = lit "professional" then
    some [lit "It is important to note that", lit "Furthermore,",
      lit "In conclusion,", lit "Based on the analysis,"]
  else if style = lit "casual" then
    some [lit "You know what?", lit "Here\x27s the thing:",
      lit "Bottom line:", lit "So there you have it!"]
  else if style = lit "humorous" then
    some [lit "Here\x27s the funny thing:", lit "Plot twist:",
      lit "Spoiler alert:", lit "Drumroll please..."]
  else if style = lit "academic" then
    some [lit "It is worth noting that", lit "Furthermore, it can be argued that",
      lit "In light of these findings,",
      lit "The implications of this are significant."]
  else none

/-- Embedding of `_adjust_tone_markers` (style_refiner.py lines 232-272):
for a known style, prefix the second sentence (lowered) with the first
marker when there are more than two sentences, and prefix the last sentence
with the last marker when there is more than one.  For an unknown style the
source raises `UnboundLocalError` at the final join (the `sentences`
variable is only assigned inside the guard), modelled as an error value;
`refine` never reaches this case because `_apply_style_transformations`
coerces unknown styles to "casual" first. -/
def adjustToneMarkers (content style : Txt) : Except Txt Txt :=
  match toneMarkers style with
  | some markers =>
    let sentences := splitOnSep (lit ". ") content
    let sentences :=
      if 2 < sentences.length then
        sentences.set 1 (markers.headD [] ++ lit " " ++ lowerTxt (sentences.getD 1 []))
      else sentences
    let sentences :=
      if 1 < sentences.length then
        sentences.set (sentences.length - 1)
          (markers.getLastD [] ++ lit " " ++ sentences.getD (sentences.length - 1) [])
      else sentences
    .ok (joinSep (lit ". ") sentences)
  | none =>
    .error (lit "UnboundLocalError: local variable \x27sentences\x27 referenced before assignment")

/-- Embedding of `_apply_style_transformations` (style_refiner.py lines
122-154): coerce unknown styles to "casual", apply word replacements (one
change-log entry per pair whose source word occurs as a substring of the
lowered content, matching the source\x27s `in` test), adjust sentence
structure, then tone markers. -/
def applyStyleTransformations (content style targetAudience : Txt) :
    Except Txt (Txt × List Txt) :=
  let style := if styleRulesHas style then style else lit "casual"
  let step1 := (getWordReplacements style).foldl
    (fun (p : Txt × List Txt) r =>
      if hasSub (lowerTxt p.1) r.1 then
        (wordSub r.1 r.2 p.1,
          p.2 ++ [lit "Replaced \x27" ++ r.1 ++ lit "\x27 with \x27" ++ r.2 ++
            lit "\x27 for " ++ style ++ lit " style"])
      else p)
    (content, [])
  let step2 :=
    if sentenceStructureOf style = lit "simple" then
      (simplifySentences step1.1,
        step1.2 ++ [lit "Simplified sentence structure for better readability"])
    else if sentenceStructureOf style = lit "complex" then
      (complexifySentences step1.1,
        step1.2 ++ [lit "Enhanced sentence complexity for professional tone"])
    else step1
  match adjustToneMarkers step2.1 style with
  | .ok c3 => .ok (c3, step2.2 ++ [lit "Applied " ++ style ++ lit " tone markers"])
  | .error e => .error e

/-- Sentence targets of the `length_rules` table (style_refiner.py lines
66-70). -/
def maxSentencesOf (length : Txt) : Nat :=
  if length = lit "short" then 3
  else if length = lit "medium" then 6
  else if length = lit "long" then 10
  else 0

/-- Expansion templates of `_expand_content` (style_refiner.py lines
299-308). -/
def expansionTemplates : List Txt :=
  [lit "This aspect is particularly important to consider.",
   lit "It\x27s worth exploring this topic further.",
   lit "Additional research supports these findings.",
   lit "This approach has proven effective in various contexts.",
   lit "Further analysis reveals interesting insights.",
   lit "This perspective offers valuable insights.",
   lit "Consider the implications of this approach.",
   lit "This method has demonstrated consistent results."]

/-- Embedding of `_expand_content` (style_refiner.py lines 297-315): append
the first `additional` templates (at most all eight, in order). -/
def expandContent (content : Txt) (additional : Nat) : Txt :=
  joinSep (lit ". ")
    (splitOnSep (lit ". ") content ++ expansionTemplates.take additional)

/-- Embedding of `_adjust_length` (style_refiner.py lines 274-295): coerce
unknown lengths to "medium", truncate above the target sentence count,
expand below 0.7 times the target. -/
def adjustLength (content length : Txt) : Txt × List Txt :=
  let length := if length = lit "short" ∨ length = lit "medium" ∨
      length = lit "long" then length else lit "medium"
  let targetSentences := maxSentencesOf length
  let currentSentences := (splitOnSep (lit ". ") content).length
  if targetSentences < currentSentences then
    (joinSep (lit ". ") ((splitOnSep (lit ". ") content).take targetSentences),
      [lit "Shortened content to " ++ natToTxt targetSentences ++ lit " sentences"])
  else if (currentSentences : ℚ) < (targetSentences : ℚ) * (7/10) then
    (expandContent content (targetSentences - currentSentences),
      [lit "Expanded content to meet " ++ length ++ lit " length requirements"])
  else (content, [])

/-- Audience word-replacement tables of `_adjust_for_audience`
(style_refiner.py lines 321-338); `none` for an unknown audience. -/
def audienceAdjustments (targetAudience : Txt) : Option (List (Txt × Txt)) :=
  if targetAudience = lit "general" then some []
  else if targetAudience = lit "technical" then
    some [(lit "simple", lit "straightforward"), (lit "easy", lit "efficient"),
      (lit "basic", lit "fundamental")]
  else if targetAudience = lit "beginners" then
    some [(lit "complex", lit "detailed"), (lit "advanced", lit "comprehensive"),
      (lit "sophisticated", lit "thorough")]
  else if targetAudience = lit "experts" then
    some [(lit "simple", lit "elementary"), (lit "basic", lit "fundamental"),
      (lit "easy", lit "straightforward")]
  else none

/-- Embedding of `_adjust_for_audience` (style_refiner.py lines 317-346). -/
def adjustForAudience (content targetAudience : Txt) : Txt × List Txt :=
  match audienceAdjustments targetAudience with
  | some pairs =>
    pairs.foldl
      (fun (p : Txt × List Txt) r =>
        if hasSub (lowerTxt p.1) r.1 then
          (wordSub r.1 r.2 p.1,
            p.2 ++ [lit "Adjusted vocabulary for " ++ targetAudience ++ lit " audience"])
        else p)
      (content, [])
  | none => (content, [])

/-- Model of `re.sub(r"\s+", " ", content)`: collapse whitespace runs to a
single space. -/
def collapseWsGo : Bool → Txt → Txt
  | _, [] => []
  | inWs, c :: cs =>
    if isPySpace c then
      if inWs then collapseWsGo true cs else ' ' :: collapseWsGo true cs
    else c :: collapseWsGo false cs

/-- Sentence punctuation class `[.,!?]`. -/
def isSentencePunct (c : Char) : Bool := c = '.' ∨ c = ',' ∨ c = '!' ∨ c = '?'

/-- Model of `re.sub(r"\s+([.,!?])", r"\1", content)`: delete every
maximal whitespace run that immediately precedes a punctuation character. -/
def fixPunct : Txt → Txt
  | [] => []
  | c :: cs =>
    if isPySpace c then
      let run := (c :: cs).takeWhile isPySpace
      let rest := (c :: cs).drop run.length
      if rest ≠ [] ∧ isSentencePunct (rest.headD ' ') then
        rest.headD ' ' :: fixPunct rest.tail
      else run ++ fixPunct rest
    else c :: fixPunct cs
termination_by t => t.length
decreasing_by
  · rename_i h hin
    simp [h] <;> omega
  · rename_i h hin
    simp [h] <;> omega
  · simp only [List.length_cons]
    omega

/-- Embedding of `_polish_content` (style_refiner.py lines 348-363):
collapse whitespace, fix space-before-punctuation, capitalize the first
character of every non-empty sentence (empty sentences are dropped). -/
def polishContent (content : Txt) : Txt :=
  let content := collapseWsGo false content
  let content := fixPunct content
  let sentences := splitOnSep (lit ". ") content
  let capitalized := (sentences.filter (· ≠ [])).map
    (fun s => upperChar (s.headD ' ') :: s.tail)
  joinSep (lit ". ") capitalized

/-- Body of `refine` (style_refiner.py lines 91-116): the four steps in
order, accumulating change-log entries. -/
def refineSteps (content style length targetAudience : Txt) :
    Except Txt (Txt × List Txt) :=
  match applyStyleTransformations content style targetAudience with
  | .error e => .error e
  | .ok (c1, ch1) =>
    let (c2, ch2) := adjustLength c1 length
    let (c3, ch3) := adjustForAudience c2 targetAudience
    (.ok (polishContent c3, ch1 ++ ch2 ++ ch3))

/-- Embedding of `StyleRefiner.refine` (style_refiner.py lines 72-120).
The `exc` parameter models a Python runtime exception raised while the
steps execute (the embedded steps themselves are total, so the only other
error source is the dead `UnboundLocalError` branch of the tone-marker
step); the `except` handler returns the original content with a single
diagnostic entry. -/
def refine (content style length targetAudience : Txt) (exc : Option Txt) :
    Txt × List Txt :=
  match exc with
  | some e => (content, [lit "Refinement failed: " ++ e])
  | none =>
    match refineSteps content style length targetAudience with
    | .ok r => r
    | .error e => (content, [lit "Refinement failed: " ++ e])

/-- Claim C7: for every input text, style, length and audience, if an
exception is raised during a refinement step then `refine` returns the
original input text completely unchanged together with a change log
containing exactly one entry describing the failure, and the exception is
not propagated (the handler yields a normal return value). -/
theorem c7_refine_exception_safe (content style length targetAudience e : Txt) :
    refine content style length targetAudience (some e) =
      (content, [lit "Refinement failed: " ++ e]) ∧
    (refine content style length targetAudience (some e)).1 = content ∧
    (refine content style length targetAudience (some e)).2.length = 1 ∧
    (∀ e2, refineSteps content style length targetAudience = Except.error e2 →
      refine content style length targetAudience none =
        (content, [lit "Refinement failed: " ++ e2])) := by
  refine ⟨rfl, rfl, rfl, fun e2 herr => ?_⟩
  unfold refine
  rw [herr]

end CapstonePipeline
